import Mathlib

/-!
# Verification of the fin_back statement-generation and valuation engine

This file gives a shallow embedding, over exact rationals `ℚ`, of the core of
the repository:

* `src/services/dcf_calculation.py` — the DCF / NPV / IRR / payback primitives;
* `src/services/historical/base_historical_service.py` — the income-statement,
  balance-sheet and cash-flow generators with their projection helpers;
* `src/services/historical/service_historical_service.py` — input validation.

Python floats are modelled as rationals (exact arithmetic); Python lists as
`List ℚ`; Python dicts with insertion order as association lists.  Scalar
configuration fields that the source coerces with `float()` / `int()` are
modelled as `PyVal` (missing / numeric / unparseable), so that the coercion can
fail exactly where the source can raise; generator bodies run in `Except Unit`
and the public generators catch the error and return the degraded fallback
statement, mirroring the `try/except` structure of the source.  Python's
`ZeroDivisionError` on an unguarded float division is modelled by `pydiv`.
Year counts are modelled as naturals (Python `range` semantics; negative
counts behave as zero).
-/

unseal Rat.add Rat.mul Rat.inv Rat.sub Rat.ofScientific

deriving instance DecidableEq for Except

/-- A numeric value as it arrives from the request dict: absent, a number, or a
string that `float()` / `int()` cannot parse. -/
inductive PyVal where
  | missing : PyVal
  | num : ℚ → PyVal
  | bad : PyVal
deriving DecidableEq, Repr

/-- `float(data.get(key, default))`: default on a missing key, error on an
unparseable value. -/
def parseFloat : PyVal → ℚ → Except Unit ℚ
  | .missing, d => .ok d
  | .num q, _ => .ok q
  | .bad, _ => .error ()

/-- `int(data.get(key, default))`, clamped to `ℕ` (the parsed count is only
ever used through `range` / list replication, where negatives act as zero). -/
def parseNat : PyVal → ℕ → Except Unit ℕ
  | .missing, d => .ok d
  | .num q, _ => .ok (q.num / (q.den : ℤ)).toNat
  | .bad, _ => .error ()

/-- Python float division: raises `ZeroDivisionError` on a zero denominator. -/
def pydiv (a b : ℚ) : Except Unit ℚ :=
  if b = 0 then .error () else .ok (a / b)

/-- `l[i]` under an `if i < len(l)` guard (the source always guards or is in
range where this is used): out-of-range reads give 0. -/
def get0 (l : List ℚ) (i : ℕ) : ℚ := l.getD i 0

/-- The `ensure_array_length` local function of `_generate_balance_sheet`, and
the identical inline pad/truncate normalization used by the projection
helpers: shorter lists are zero-padded on the right, longer ones truncated. -/
def ensureLen (l : List ℚ) (n : ℕ) : List ℚ :=
  if l.length < n then l ++ List.replicate (n - l.length) 0
  else if l.length > n then l.take n
  else l

/-- The `arr[:n] + [0] * max(0, n - len(arr))` slice-and-pad pattern used for
`revenue_array`, `expenses_array`, `depreciation_bs` and the cash-flow copies. -/
def sliceFill (l : List ℚ) (n : ℕ) : List ℚ :=
  l.take n ++ List.replicate (n - l.length) 0

/-- A list defined by a per-index formula over `range n` (used for the source's
index loops whose body depends only on the index). -/
def seqMap (n : ℕ) (f : ℕ → ℚ) : List ℚ := (List.range n).map f

theorem length_ensureLen (l : List ℚ) (n : ℕ) : (ensureLen l n).length = n := by
  unfold ensureLen
  split
  · simp; omega
  · split
    · simp; omega
    · omega

theorem ensureLen_eq_self (l : List ℚ) (n : ℕ) (h : l.length = n) :
    ensureLen l n = l := by
  unfold ensureLen
  simp [h]

theorem length_sliceFill (l : List ℚ) (n : ℕ) : (sliceFill l n).length = n := by
  unfold sliceFill
  simp
  omega

theorem length_seqMap (n : ℕ) (f : ℕ → ℚ) : (seqMap n f).length = n := by
  simp [seqMap]

theorem get0_seqMap (n : ℕ) (f : ℕ → ℚ) (i : ℕ) (h : i < n) :
    get0 (seqMap n f) i = f i := by
  simp [seqMap, get0, List.getD, List.getElem?_map, List.getElem?_range, h]

theorem sliceFill_eq_self (l : List ℚ) (n : ℕ) (h : l.length = n) :
    sliceFill l n = l := by
  unfold sliceFill
  subst h
  simp

/-- Is `pat` an infix of the character list? -/
def charsInfixOf (pat : List Char) : List Char → Bool
  | [] => pat.isEmpty
  | c :: rest => pat.isPrefixOf (c :: rest) || charsInfixOf pat rest

/-- Python's `in` on strings (substring test), used by the label searches. -/
def strContains (s pat : String) : Bool := charsInfixOf pat.data s.data

/-- Python `str.title()` restricted to ASCII: an alphabetic character that
follows a non-alphabetic one is upper-cased, other alphabetic characters are
lower-cased. -/
def pyTitle (s : String) : String :=
  ⟨(s.data.foldl
      (fun (acc : List Char × Bool) c =>
        if c.isAlpha then
          (acc.1 ++ [if acc.2 then c.toLower else c.toUpper], true)
        else (acc.1 ++ [c], false))
      ([], false)).1⟩

/-!  ## DCF / valuation primitives (`src/services/dcf_calculation.py`) -/

/-- `calculate_dcf_value`: discounts cash flow `t` by `(1+r)^(t+1)` and adds a
terminal value discounted at `terminal_year` (default the list length).
(The Python raises `ZeroDivisionError` at `rate = -1`; here `ℚ` division by
zero returns 0, and the claims about this function assume `1 + r ≠ 0`.) -/
def calculate_dcf_value (free_cash_flows : List ℚ) (discount_rate : ℚ)
    (terminal_value : Option ℚ := none) (terminal_year : Option ℕ := none) : ℚ :=
  if free_cash_flows = [] then 0
  else
    let dcf := (free_cash_flows.enum.map
      (fun p => p.2 / (1 + discount_rate) ^ (p.1 + 1))).sum
    match terminal_value with
    | none => dcf
    | some tv =>
      match terminal_year with
      | some ty => dcf + tv / (1 + discount_rate) ^ ty
      | none => dcf + tv / (1 + discount_rate) ^ free_cash_flows.length

/-- `calculate_npv`: discounts cash flow `t` by `(1+r)^t` (period 0
undiscounted). -/
def calculate_npv (cash_flows : List ℚ) (discount_rate : ℚ) : ℚ :=
  if cash_flows = [] then 0
  else (cash_flows.enum.map (fun p => p.2 / (1 + discount_rate) ^ p.1)).sum

/-- The Newton-Raphson loop of `calculate_irr`: returns a rate only when
`|npv| < tol`; gives up on a zero derivative, on leaving `[-0.99, 10]`, or
when the iteration budget runs out. -/
def irrLoop (cash_flows : List ℚ) (tol : ℚ) : ℕ → ℚ → Option ℚ
  | 0, _ => none
  | n + 1, rate =>
    let npv := (cash_flows.enum.map (fun p => p.2 / (1 + rate) ^ p.1)).sum
    let dnpv := (cash_flows.enum.map
      (fun p => -(p.1 : ℚ) * p.2 / (1 + rate) ^ (p.1 + 1))).sum
    if |npv| < tol then some rate
    else if dnpv = 0 then none
    else
      let rate' := rate - npv / dnpv
      if rate' < -(99 / 100 : ℚ) ∨ rate' > 10 then none
      else irrLoop cash_flows tol n rate'

/-- `calculate_irr`: `None` on an empty list or when all cash flows share one
sign, otherwise Newton-Raphson from `guess`. -/
def calculate_irr (cash_flows : List ℚ) (guess : ℚ := 1 / 10)
    (max_iter : ℕ := 50) (tol : ℚ := 1 / 1000000) : Option ℚ :=
  if cash_flows = [] then none
  else if cash_flows.all (fun cf => 0 ≤ cf) then none
  else if cash_flows.all (fun cf => cf ≤ 0) then none
  else irrLoop cash_flows tol max_iter guess

/-- The scan of `calculate_payback_period`: walks the list keeping the
cumulative sum, returning the interpolated period at the first
negative-to-non-negative crossing. -/
def paybackLoop : List ℚ → ℕ → ℚ → Option ℚ ⊕ ℚ
  | [], _, cum => Sum.inr cum
  | cf :: rest, i, cum =>
    let cum' := cum + cf
    if cum < 0 ∧ 0 ≤ cum' then
      Sum.inl (some (if cf ≠ 0 then (i : ℚ) - cum / cf else (i : ℚ)))
    else paybackLoop rest (i + 1) cum'

/-- `calculate_payback_period`: crossing-period interpolation, `999.0` when the
cumulative sum ends negative without crossing, `0.0` for an all-non-negative
list, `None` otherwise. -/
def calculate_payback_period (cash_flows : List ℚ) : Option ℚ :=
  if cash_flows = [] then none
  else
    match paybackLoop cash_flows 0 0 with
    | Sum.inl r => r
    | Sum.inr cum =>
      if cum < 0 then some 999
      else if 0 ≤ cum ∧ cash_flows.all (fun cf => 0 ≤ cf) then some 0
      else none

/-! ## Data model (the request dict consumed by the historical services)

The `current_*` parameters (`services`, `expenses`, …) are threaded through the
source signatures but never read by the statement calculations, so they are
omitted.  The `services` key of a historical year is optional because
validation checks for its presence; the other per-year keys are read only via
`.get(key, [])`. -/

structure ServiceRecord where
  name : String := "Unknown Service"
  historicalRevenue : ℚ := 0
  historicalClients : ℚ := 0
  cost : ℚ := 0
deriving DecidableEq, Repr

structure ServiceYear where
  services : Option (List ServiceRecord) := none
deriving DecidableEq, Repr

structure ExpenseRecord where
  historicalAmount : ℚ := 0
  category : String := "Other"
deriving DecidableEq, Repr

structure ExpenseYear where
  expenses : List ExpenseRecord := []
deriving DecidableEq, Repr

structure EquipmentRecord where
  cost : ℚ := 0
  usefulLife : ℚ := 5
deriving DecidableEq, Repr

structure EquipmentYear where
  equipment : List EquipmentRecord := []
deriving DecidableEq, Repr

/-- A loan record; `term` is read as `loan.get('years', loan.get('term', 1))`. -/
structure LoanRecord where
  amount : ℚ := 0
  rate : ℚ := 0
  yearsKey : Option ℚ := none
  termKey : Option ℚ := none
deriving DecidableEq, Repr

structure LoanYear where
  loans : List LoanRecord := []
deriving DecidableEq, Repr

structure OtherRecord where
  amount : ℚ := 0
  isIncome : Bool := false
deriving DecidableEq, Repr

structure OtherYear where
  other : List OtherRecord := []
deriving DecidableEq, Repr

structure InvestmentRecord where
  amount : ℚ := 0
  income : Bool := false
  incomeAmount : ℚ := 0
deriving DecidableEq, Repr

structure InvestmentYear where
  investments : List InvestmentRecord := []
deriving DecidableEq, Repr

structure OwnerDrawingsData where
  amount : ℚ := 0
  frequency : String := "annual"
deriving DecidableEq, Repr

/-- The `serviceBusinessModel` dict; `none` means the key is absent and the
documented default applies at point of use. -/
structure ServiceBusinessModelData where
  clientRetentionRate : Option ℚ := none
  churnRate : Option ℚ := none
  clientAcquisitionCost : Option ℚ := none
  customerLifetimeValue : Option ℚ := none
  recurringRevenuePercent : Option ℚ := none
  expansionRevenuePercent : Option ℚ := none
  seasonalityFactor : Option ℚ := none
  utilizationRate : Option ℚ := none
  teamSize : Option ℚ := none
  teamGrowthRate : Option ℚ := none
deriving DecidableEq, Repr

/-- The validated request payload as consumed by the generators. -/
structure InputData where
  yearsInBusiness : PyVal := .missing
  forecastYears : PyVal := .missing
  taxRate : PyVal := .missing
  selfFunding : PyVal := .missing
  revenueGrowthRate : PyVal := .missing
  customerGrowthRate : PyVal := .missing
  expenseGrowthRate : PyVal := .missing
  historicalServices : List ServiceYear := []
  historicalExpenses : List ExpenseYear := []
  historicalEquipment : List EquipmentYear := []
  historicalLoans : List LoanYear := []
  historicalOther : List OtherYear := []
  historicalInvestments : List InvestmentYear := []
  ownerDrawings : Option OwnerDrawingsData := none
  serviceBusinessModel : Option ServiceBusinessModelData := none
deriving DecidableEq, Repr

/-- One row of a generated statement (`{'label': ..., 'values': ..., flags}`).
Keys absent from a given row are modelled by their falsy defaults. -/
structure LineItem where
  label : String
  values : List ℚ
  is_header : Bool := false
  is_total : Bool := false
  is_sub_item : Bool := false
  is_spacer : Bool := false
  category : String := ""
deriving DecidableEq, Repr

/-- A generated statement: year labels plus ordered line items.  (The income
statement's `summary`/`metrics` keys and the balance sheet's `validation` key
carry no information the line items do not; the validation flag is kept in
`BSArrays`.) -/
structure Statement where
  years : List String
  line_items : List LineItem
deriving DecidableEq, Repr

/-- An insertion-ordered dict of per-category value series. -/
abbrev Breakdown := List (String × List ℚ)

def bdMem (k : String) (m : Breakdown) : Bool := m.any (fun p => p.1 == k)

def bdSet (k : String) (f : List ℚ → List ℚ) (m : Breakdown) : Breakdown :=
  m.map (fun p => if p.1 == k then (p.1, f p.2) else p)

/-! ## Projection helpers (`BaseHistoricalService._calculate_*`) -/

/-- The per-category projection loop over a breakdown dict (each entry is
updated independently, in insertion order). -/
def bdForecastM (f : String × List ℚ → Except Unit (String × List ℚ)) :
    Breakdown → Except Unit Breakdown
  | [] => .ok []
  | p :: rest => do
    let q ← f p
    let rest' ← bdForecastM f rest
    .ok (q :: rest')

/-- Result of `_calculate_revenue_breakdown` (the unused `metrics_used` echo of
the inputs is omitted). -/
structure RevenueData where
  total_revenue : List ℚ
  service_breakdown : Breakdown
  projected_customers : List ℚ
deriving DecidableEq, Repr

/-- One historical year of `_calculate_revenue_breakdown`: sums revenue and
client counts over the year's services and records each service's revenue in
the breakdown dict (a duplicate service name in one year overwrites). -/
def revHistYear (total_years year_idx : ℕ) (services : List ServiceRecord)
    (bd : Breakdown) : ℚ × ℚ × Breakdown :=
  services.foldl
    (fun (st : ℚ × ℚ × Breakdown) s =>
      let bd1 := if bdMem s.name st.2.2 then st.2.2
        else st.2.2 ++ [(s.name, List.replicate total_years 0)]
      (st.1 + s.historicalRevenue, st.2.1 + s.historicalClients,
        bdSet s.name (fun l => l.set year_idx s.historicalRevenue) bd1))
    (0, 0, bd)

/-- The historical loop of `_calculate_revenue_breakdown`: per year in
`range(years_in_business)`, total revenue, client count, and the service
breakdown (years beyond the provided records contribute zeros). -/
def revHistPhase (hs : List ServiceYear) (yib total_years : ℕ) :
    List ℚ × List ℚ × Breakdown :=
  (List.range yib).foldl
    (fun (st : List ℚ × List ℚ × Breakdown) year_idx =>
      match hs[year_idx]? with
      | some yr =>
        let r := revHistYear total_years year_idx (yr.services.getD []) st.2.2
        (st.1 ++ [r.1], st.2.1 ++ [r.2.1], r.2.2)
      | none => (st.1 ++ [0], st.2.1 ++ [0], st.2.2))
    ([], [], [])

/-- Mutable state of the forecast loop of `_calculate_revenue_breakdown`.
`retained_new` holds the local variables `retained_customers` /
`new_customers`, which are only bound once a year with a positive customer
base has run (reading them before that raises `NameError` in the source). -/
structure RevForecastState where
  total_revenue : List ℚ
  base_revenue : ℚ
  base_customers : ℚ
  retained_new : Option (ℚ × ℚ)
  bd : Breakdown
deriving DecidableEq, Repr

/-- One forecast year of `_calculate_revenue_breakdown`: retention/churn
customer projection, revenue-per-customer split, seasonality multiplier, team
capacity ceiling, then the proportional service-breakdown projection. -/
def revForecastStep (yib : ℕ)
    (client_retention_rate customer_growth_rate cac clv
      expansion_revenue_percent revenue_growth_rate seasonality_factor
      utilization_rate team_size team_growth_rate : ℚ)
    (st : RevForecastState) (year_idx : ℕ) : Except Unit RevForecastState := do
  let forecast_year := year_idx + 1
  let custStep :=
    if st.base_customers > 0 then
      let retained_customers := st.base_customers * client_retention_rate
      let new_customers :=
        if cac > 0 ∧ clv > 0 then
          st.base_customers * customer_growth_rate * min (clv / cac) 2
        else st.base_customers * customer_growth_rate
      (retained_customers + new_customers, some (retained_customers, new_customers))
    else (st.base_customers * (1 + customer_growth_rate) ^ forecast_year, st.retained_new)
  let projected_customers := custStep.1
  let retNew := custStep.2
  let base_revenue_per_customer :=
    if st.base_customers > 0 ∧ st.base_revenue > 0 then
      st.base_revenue / st.base_customers
    else if st.base_revenue > 0 then st.base_revenue / max 1 st.base_customers
    else 0
  let pr1E : Except Unit ℚ :=
    if base_revenue_per_customer > 0 then
      match retNew with
      | some rn =>
        Except.ok (rn.1 * base_revenue_per_customer * (1 + expansion_revenue_percent)
          + rn.2 * base_revenue_per_customer)
      | none => Except.error ()
    else Except.ok (st.base_revenue * (1 + revenue_growth_rate) ^ forecast_year)
  let pr1 ← pr1E
  let seasonality_multiplier : ℚ :=
    1 + seasonality_factor * (1 / 2 - ((forecast_year % 2 : ℕ) : ℚ) * (1 / 2))
  let pr2 := pr1 * seasonality_multiplier
  let pr3 :=
    if team_size > 0 ∧ utilization_rate > 0 then
      let projected_team_size := team_size * (1 + team_growth_rate) ^ forecast_year
      let current_revenue_per_person :=
        if team_size > 0 then st.base_revenue / team_size else 0
      let capacity_based_revenue :=
        projected_team_size * current_revenue_per_person * utilization_rate
      if capacity_based_revenue > 0 then min pr2 capacity_based_revenue else pr2
    else pr2
  let tr := st.total_revenue ++ [pr3]
  let bdE : Except Unit Breakdown :=
    if st.bd ≠ [] ∧ pr3 > 0 then
      bdForecastM (fun p =>
        if get0 p.2 (yib - 1) > 0 then do
          let service_ratio ← pydiv (get0 p.2 (yib - 1)) (get0 tr (yib - 1))
          Except.ok (p.1, p.2.set (yib + year_idx) (pr3 * service_ratio))
        else Except.ok p) st.bd
    else Except.ok st.bd
  let bd ← bdE
  Except.ok ⟨tr, pr3, projected_customers, retNew, bd⟩

/-- `_calculate_revenue_breakdown`: historical aggregation followed by the
forecast loop, with the final right-length normalization of `total_revenue`.
The `churn_rate` and `recurring_revenue_percent` model inputs are parsed but
never used by the computation (they are only printed), so they do not appear.
-/
def calculateRevenueBreakdown (historical_services : List ServiceYear)
    (yib fy : ℕ) (revenue_growth_rate customer_growth_rate : ℚ)
    (sbm? : Option ServiceBusinessModelData) : Except Unit RevenueData := do
  let total_years := yib + fy
  let sbm := sbm?.getD {}
  let client_retention_rate := (sbm.clientRetentionRate.getD 85) / 100
  let cac := sbm.clientAcquisitionCost.getD 0
  let clv := sbm.customerLifetimeValue.getD 0
  let expansion_revenue_percent := (sbm.expansionRevenuePercent.getD 25) / 100
  let seasonality_factor := (sbm.seasonalityFactor.getD 20) / 100
  let utilization_rate := (sbm.utilizationRate.getD 75) / 100
  let team_size := sbm.teamSize.getD 10
  let team_growth_rate := (sbm.teamGrowthRate.getD 20) / 100
  let hist := revHistPhase historical_services yib total_years
  let base_revenue := hist.1.getLastD 0
  let base_customers := hist.2.1.getLastD 0
  let fin ← (List.range fy).foldlM
    (revForecastStep yib client_retention_rate customer_growth_rate cac clv
      expansion_revenue_percent revenue_growth_rate seasonality_factor
      utilization_rate team_size team_growth_rate)
    ⟨hist.1, base_revenue, base_customers, none, hist.2.2⟩
  Except.ok
    { total_revenue := ensureLen fin.total_revenue total_years
      service_breakdown := fin.bd
      projected_customers := hist.2.1 ++ List.replicate fy fin.base_customers }

/-- `_calculate_cost_of_goods_sold`: historical direct costs, then forecast
COGS from the average historical gross margin (or 50% of revenue). -/
def calculateCogs (historical_services : List ServiceYear) (revenue : List ℚ)
    (yib fy : ℕ) : List ℚ :=
  let hist := (List.range yib).map (fun year_idx =>
    match historical_services[year_idx]? with
    | some yr => ((yr.services.getD []).map (fun s => s.cost)).sum
    | none => 0)
  let total_cogs :=
    if hist ≠ [] ∧ revenue ≠ [] then
      let margins := ((revenue.take yib).zip hist).filterMap
        (fun p => if p.1 > 0 then some ((p.1 - p.2) / p.1) else none)
      if margins ≠ [] then
        let avg_margin := margins.sum / (margins.length : ℚ)
        hist ++ (List.range fy).map (fun y => get0 revenue (yib + y) * (1 - avg_margin))
      else hist ++ (List.range fy).map (fun y => get0 revenue (yib + y) * (1 / 2))
    else
      hist ++ (List.range fy).map (fun y =>
        (if yib + y < revenue.length then get0 revenue (yib + y) else 0) * (1 / 2))
  ensureLen total_cogs (yib + fy)

/-- Result of `_calculate_operating_expenses`. -/
structure OpexData where
  total_operating_expenses : List ℚ
  expense_breakdown : Breakdown
deriving DecidableEq, Repr

/-- One historical year of `_calculate_operating_expenses` (a duplicate
category in one year overwrites in the breakdown but adds to the total). -/
def opexHistYear (total_years year_idx : ℕ) (expenses : List ExpenseRecord)
    (bd : Breakdown) : ℚ × Breakdown :=
  expenses.foldl
    (fun (st : ℚ × Breakdown) e =>
      let bd1 := if bdMem e.category st.2 then st.2
        else st.2 ++ [(e.category, List.replicate total_years 0)]
      (st.1 + e.historicalAmount,
        bdSet e.category (fun l => l.set year_idx e.historicalAmount) bd1))
    (0, bd)

/-- The historical loop of `_calculate_operating_expenses`. -/
def opexHistPhase (he : List ExpenseYear) (yib total_years : ℕ) :
    List ℚ × Breakdown :=
  (List.range yib).foldl
    (fun (st : List ℚ × Breakdown) year_idx =>
      match he[year_idx]? with
      | some yr =>
        let r := opexHistYear total_years year_idx yr.expenses st.2
        (st.1 ++ [r.1], r.2)
      | none => (st.1 ++ [0], st.2))
    ([], [])

/-- `_calculate_operating_expenses`: grow the last historical total by
`(1+g)^(k+1)` and project each category proportionally to its last-historical
share (`category_value / base_expenses`, an unguarded division). -/
def calculateOperatingExpenses (historical_expenses : List ExpenseYear)
    (yib fy : ℕ) (expense_growth_rate : ℚ) : Except Unit OpexData := do
  let total_years := yib + fy
  let hist := opexHistPhase historical_expenses yib total_years
  let base_expenses := hist.1.getLastD 0
  let fin ← (List.range fy).foldlM
    (fun (st : List ℚ × Breakdown) year_idx => do
      let projected_expenses := base_expenses * (1 + expense_growth_rate) ^ (year_idx + 1)
      let te := st.1 ++ [projected_expenses]
      let bdE : Except Unit Breakdown :=
        if st.2 ≠ [] then
          bdForecastM (fun p =>
            if get0 p.2 (yib - 1) > 0 then do
              let expense_ratio ← pydiv (get0 p.2 (yib - 1)) base_expenses
              Except.ok (p.1, p.2.set (yib + year_idx) (projected_expenses * expense_ratio))
            else Except.ok p) st.2
        else Except.ok st.2
      let bd ← bdE
      Except.ok (te, bd))
    hist
  Except.ok
    { total_operating_expenses := ensureLen fin.1 total_years
      expense_breakdown := fin.2 }

/-- Summed straight-line depreciation of one historical year's equipment. -/
def deprHistVal (historical_equipment : List EquipmentYear) (i : ℕ) : ℚ :=
  match historical_equipment[i]? with
  | some yr => (yr.equipment.map (fun e =>
      if e.usefulLife > 0 then e.cost / e.usefulLife else 0)).sum
  | none => 0

/-- `_calculate_depreciation`: `cost/usefulLife` summed per historical year;
forecast years repeat the last historical year's total. -/
def calculateDepreciation (historical_equipment : List EquipmentYear)
    (yib fy : ℕ) : List ℚ :=
  seqMap (yib + fy) (fun i =>
    if i < yib then deprHistVal historical_equipment i
    else if yib > 0 then deprHistVal historical_equipment (yib - 1) else 0)

/-- Other-income total of one historical year. -/
def otherIncVal (historical_other : List OtherYear) (i : ℕ) : ℚ :=
  match historical_other[i]? with
  | some yr => (yr.other.filterMap
      (fun o => if o.isIncome then some o.amount else none)).sum
  | none => 0

/-- Other-expense total of one historical year. -/
def otherExpVal (historical_other : List OtherYear) (i : ℕ) : ℚ :=
  match historical_other[i]? with
  | some yr => (yr.other.filterMap
      (fun o => if o.isIncome then none else some o.amount)).sum
  | none => 0

/-- `_calculate_other_income_expenses`: historical totals; forecast years
repeat the last historical year. -/
def calculateOtherIncomeExpenses (historical_other : List OtherYear)
    (yib fy : ℕ) : List ℚ × List ℚ :=
  (seqMap (yib + fy) (fun i =>
      if i < yib then otherIncVal historical_other i
      else if yib > 0 then otherIncVal historical_other (yib - 1) else 0),
   seqMap (yib + fy) (fun i =>
      if i < yib then otherExpVal historical_other i
      else if yib > 0 then otherExpVal historical_other (yib - 1) else 0))

/-- Investment-income total of one historical year. -/
def invIncVal (historical_investments : List InvestmentYear) (i : ℕ) : ℚ :=
  match historical_investments[i]? with
  | some yr => (yr.investments.filterMap
      (fun v => if v.income then some v.incomeAmount else none)).sum
  | none => 0

/-- `_calculate_investment_income`. -/
def calculateInvestmentIncome (historical_investments : List InvestmentYear)
    (yib fy : ℕ) : List ℚ :=
  seqMap (yib + fy) (fun i =>
    if i < yib then invIncVal historical_investments i
    else if yib > 0 then invIncVal historical_investments (yib - 1) else 0)

/-- Interest total (`amount * rate/100` summed) of one historical year. -/
def interestVal (historical_loans : List LoanYear) (i : ℕ) : ℚ :=
  match historical_loans[i]? with
  | some yr => (yr.loans.map (fun l => l.amount * (l.rate / 100))).sum
  | none => 0

/-- `_calculate_interest_expense`. -/
def calculateInterestExpense (historical_loans : List LoanYear)
    (yib fy : ℕ) : List ℚ :=
  seqMap (yib + fy) (fun i =>
    if i < yib then interestVal historical_loans i
    else if yib > 0 then interestVal historical_loans (yib - 1) else 0)

/-- `_calculate_owner_compensation`: the (annualized) drawing amount applied
to every year. -/
def calculateOwnerCompensation (od : OwnerDrawingsData) (yib fy : ℕ) : List ℚ :=
  let annual := if od.frequency == "monthly" then od.amount * 12 else od.amount
  List.replicate (yib + fy) annual

/-! ## Income statement (`_generate_income_statement`) -/

/-- The loss-carryforward tax loop: walks the EBT series with the running
`accumulated_losses` scalar, returning the tax series and the final
accumulator.  A loss year pays no tax and accrues `|EBT|`; a profitable year
offsets taxable income by `min(accumulated_losses, EBT)` first. -/
def lossCarryGo (tax_rate : ℚ) : ℚ → List ℚ → List ℚ × ℚ
  | accumulated_losses, [] => ([], accumulated_losses)
  | accumulated_losses, ebt_val :: rest =>
    if ebt_val < 0 then
      let r := lossCarryGo tax_rate (accumulated_losses + |ebt_val|) rest
      (0 :: r.1, r.2)
    else if accumulated_losses > 0 then
      let loss_offset := min accumulated_losses ebt_val
      let taxable_income := ebt_val - loss_offset
      let tax := if taxable_income > 0 then taxable_income * tax_rate else 0
      let r := lossCarryGo tax_rate (accumulated_losses - loss_offset) rest
      (tax :: r.1, r.2)
    else
      let r := lossCarryGo tax_rate accumulated_losses rest
      (ebt_val * tax_rate :: r.1, r.2)

/-- The tax series of the income statement: the loop above started from an
`accumulated_losses` of 0. -/
def lossCarryTaxes (tax_rate : ℚ) (ebt : List ℚ) : List ℚ :=
  (lossCarryGo tax_rate 0 ebt).1

/-- The local arrays of `_generate_income_statement`'s body, before line-item
assembly. -/
structure ISArrays where
  yib : ℕ
  fy : ℕ
  total_years : ℕ
  tax_rate : ℚ
  years : List String
  revenue : RevenueData
  cogs : List ℚ
  opex : OpexData
  dep : List ℚ
  other_inc : List ℚ
  other_exp : List ℚ
  inv_inc : List ℚ
  int_exp : List ℚ
  owner_comp : List ℚ
  gross_profit : List ℚ
  ebitda : List ℚ
  ebit : List ℚ
  ebt : List ℚ
  taxes : List ℚ
  net_income : List ℚ
  cash_available : List ℚ
deriving DecidableEq, Repr

/-- The pure tail of `_generate_income_statement`'s body: the infallible
projection calls and the derived P&L series (each derived loop reads its
inputs under `if i < len(...) else 0` guards, i.e. `get0`).  `cy` is the
ambient `datetime.now().year`. -/
def incomeArraysCore (cy : ℤ) (d : InputData) (yib fy : ℕ) (tax_rate : ℚ)
    (revenue_data : RevenueData) (operating_expenses : OpexData) : ISArrays :=
  let total_years := yib + fy
  let years := (List.range total_years).map
    (fun (i : ℕ) => toString (cy - (yib : ℤ) + 1 + (i : ℤ)))
  let cogs_data := calculateCogs d.historicalServices revenue_data.total_revenue yib fy
  let depreciation_data := calculateDepreciation d.historicalEquipment yib fy
  let other_data := calculateOtherIncomeExpenses d.historicalOther yib fy
  let investment_income_data := calculateInvestmentIncome d.historicalInvestments yib fy
  let interest_expense_data := calculateInterestExpense d.historicalLoans yib fy
  let owner_compensation_data :=
    calculateOwnerCompensation (d.ownerDrawings.getD {}) yib fy
  let gross_profit := seqMap total_years (fun i =>
    get0 revenue_data.total_revenue i - get0 cogs_data i)
  let ebitda := seqMap total_years (fun i =>
    get0 gross_profit i - get0 operating_expenses.total_operating_expenses i
      + get0 other_data.1 i - get0 other_data.2 i)
  let ebit := seqMap total_years (fun i => get0 ebitda i - get0 depreciation_data i)
  let ebt := seqMap total_years (fun i =>
    get0 ebit i + get0 investment_income_data i - get0 interest_expense_data i)
  let taxes := lossCarryTaxes tax_rate ebt
  let net_income := seqMap total_years (fun i => get0 ebt i - get0 taxes i)
  let cash_available := seqMap total_years (fun i =>
    get0 net_income i - get0 owner_compensation_data i)
  { yib, fy, total_years, tax_rate, years
    revenue := revenue_data
    cogs := cogs_data
    opex := operating_expenses
    dep := depreciation_data
    other_inc := other_data.1
    other_exp := other_data.2
    inv_inc := investment_income_data
    int_exp := interest_expense_data
    owner_comp := owner_compensation_data
    gross_profit, ebitda, ebit, ebt, taxes, net_income, cash_available }

/-- The fallible steps of `_generate_income_statement`'s body: the scalar
parses and the two projections that can raise; the rest is
`incomeArraysCore`. -/
def incomeArrays (cy : ℤ) (d : InputData) : Except Unit ISArrays := do
  let yib ← parseNat d.yearsInBusiness 3
  let fy ← parseNat d.forecastYears 5
  let tax_rate := (← parseFloat d.taxRate 25) / 100
  let revenue_growth_rate := (← parseFloat d.revenueGrowthRate 0) / 100
  let customer_growth_rate := (← parseFloat d.customerGrowthRate 0) / 100
  let revenue_data ← calculateRevenueBreakdown d.historicalServices yib fy
    revenue_growth_rate customer_growth_rate d.serviceBusinessModel
  let expense_growth_rate := (← parseFloat d.expenseGrowthRate 0) / 100
  let operating_expenses ← calculateOperatingExpenses d.historicalExpenses yib fy
    expense_growth_rate
  Except.ok (incomeArraysCore cy d yib fy tax_rate revenue_data operating_expenses)

/-- A blank presentation row. -/
def spacerRow (total_years : ℕ) : LineItem :=
  { label := "", values := List.replicate total_years 0, is_spacer := true }

/-- The line-item assembly of `_generate_income_statement` (fixed section
ordering, dynamic expense-category rows, then the detail rows). -/
def mkIncomeStatement (a : ISArrays) : Statement :=
  let t := a.total_years
  { years := a.years
    line_items :=
      [ { label := "REVENUE", values := List.replicate t 0, is_header := true },
        { label := "    Service Revenue", values := a.revenue.total_revenue, is_sub_item := true },
        { label := "TOTAL REVENUE", values := a.revenue.total_revenue, is_total := true },
        spacerRow t,
        { label := "COST OF GOODS SOLD (COGS)", values := List.replicate t 0, is_header := true },
        { label := "    Direct Costs", values := a.cogs, is_sub_item := true },
        { label := "TOTAL COGS", values := a.cogs, is_total := true },
        spacerRow t,
        { label := "GROSS PROFIT", values := a.gross_profit, is_total := true },
        spacerRow t,
        { label := "OPERATING EXPENSES", values := List.replicate t 0, is_header := true } ]
      ++ a.opex.expense_breakdown.map (fun p =>
          { label := "    " ++ pyTitle p.1, values := p.2, is_sub_item := true })
      ++ [ { label := "    Depreciation & Amortization (Operating)", values := a.dep, is_sub_item := true },
          { label := "TOTAL OPERATING EXPENSES", values := a.opex.total_operating_expenses, is_total := true },
          spacerRow t,
          { label := "OTHER OPERATING INCOME / EXPENSES", values := List.replicate t 0, is_header := true },
          { label := "    Other Operating Income", values := a.other_inc, is_sub_item := true },
          { label := "    Other Operating Expenses", values := a.other_exp, is_sub_item := true },
          spacerRow t,
          { label := "EBITDA", values := a.ebitda, is_total := true },
          { label := "    Less: Depreciation & Amortization", values := a.dep.map (fun x => -x), is_sub_item := true },
          { label := "EBIT", values := a.ebit, is_total := true },
          spacerRow t,
          { label := "NON-OPERATING INCOME / EXPENSES", values := List.replicate t 0, is_header := true },
          { label := "    Investment Income", values := a.inv_inc, is_sub_item := true },
          { label := "    Interest Expense", values := a.int_exp, is_sub_item := true },
          { label := "EARNINGS BEFORE TAXES (EBT)", values := a.ebt, is_total := true },
          spacerRow t,
          { label := "TAX CALCULATION", values := List.replicate t 0, is_header := true },
          { label := "    Tax Provision (with Loss Carryforward)", values := a.taxes, is_sub_item := true },
          { label := "NET INCOME", values := a.net_income, is_total := true },
          spacerRow t,
          { label := "CASH FLOW TO OWNER", values := List.replicate t 0, is_header := true },
          { label := "    Less: Owner Drawings", values := a.owner_comp.map (fun x => -x), is_sub_item := true },
          { label := "CASH AVAILABLE TO OWNER", values := a.cash_available, is_total := true } ]
      ++ (a.revenue.service_breakdown.filter (fun p => p.2.any (fun v => v > 0))).map
          (fun p => { label := "Revenue - " ++ p.1, values := p.2, category := "revenue_detail" })
      ++ (a.opex.expense_breakdown.filter (fun p => p.2.any (fun v => v > 0))).map
          (fun p => { label := "Expense - " ++ p.1, values := p.2, category := "expense_detail" }) }

/-- The degraded income statement returned by the `except` handler: 5
zero-filled placeholder years. -/
def isFallback (cy : ℤ) : Statement :=
  { years := (List.range 5).map (fun (i : ℕ) => "FY" ++ toString (cy + (i : ℤ)))
    line_items :=
      [ { label := "Revenue", values := List.replicate 5 0 },
        { label := "Cost of Goods Sold", values := List.replicate 5 0 },
        { label := "Gross Profit", values := List.replicate 5 0 },
        { label := "Operating Expenses", values := List.replicate 5 0 },
        { label := "Net Income", values := List.replicate 5 0 } ] }

/-- `_generate_income_statement`: the body wrapped in its `try/except`. -/
def genIncomeStatement (cy : ℤ) (d : InputData) : Statement :=
  match incomeArrays cy d with
  | .ok a => mkIncomeStatement a
  | .error _ => isFallback cy

/-! ## Balance sheet (`_generate_balance_sheet`) -/

/-- Retained earnings recurrence: `RE[i] = RE[i-1] + NetIncome[i] -
OwnerDrawings[i]`, base case `RE[0] = NetIncome[0] - OwnerDrawings[0]`. -/
def reVal (net_income owner_drawings : List ℚ) : ℕ → ℚ
  | 0 => get0 net_income 0 - get0 owner_drawings 0
  | i + 1 => reVal net_income owner_drawings i
      + get0 net_income (i + 1) - get0 owner_drawings (i + 1)

/-- Accumulated depreciation: running sum of the depreciation series. -/
def accDepVal (dep : List ℚ) : ℕ → ℚ
  | 0 => get0 dep 0
  | i + 1 => accDepVal dep i + get0 dep (i + 1)

/-- Gross equipment cost total of one historical year. -/
def equipGrossVal (historical_equipment : List EquipmentYear) (i : ℕ) : ℚ :=
  match historical_equipment[i]? with
  | some yr => (yr.equipment.map (fun e => e.cost)).sum
  | none => 0

/-- Investment amount total of one historical year. -/
def invAmtVal (historical_investments : List InvestmentYear) (i : ℕ) : ℚ :=
  match historical_investments[i]? with
  | some yr => (yr.investments.map (fun v => v.amount)).sum
  | none => 0

/-- A loan's term: `loan.get('years', loan.get('term', 1))`. -/
def loanTerm (l : LoanRecord) : ℚ := l.yearsKey.getD (l.termKey.getD 1)

/-- Short-term loan total (`term <= 1`) of one historical year. -/
def stLoanVal (historical_loans : List LoanYear) (i : ℕ) : ℚ :=
  match historical_loans[i]? with
  | some yr => ((yr.loans.filter (fun l => loanTerm l ≤ 1)).map (fun l => l.amount)).sum
  | none => 0

/-- Long-term loan total (`term > 1`) of one historical year. -/
def ltLoanVal (historical_loans : List LoanYear) (i : ℕ) : ℚ :=
  match historical_loans[i]? with
  | some yr => ((yr.loans.filter (fun l => 1 < loanTerm l)).map (fun l => l.amount)).sum
  | none => 0

/-- Element-wise sum (the `[a + b for a, b in zip(...)]` pattern). -/
def zipAdd (a b : List ℚ) : List ℚ := List.zipWith (fun x y => x + y) a b

/-- The local arrays of `_generate_balance_sheet`'s body. -/
structure BSArrays where
  yib : ℕ
  fy : ℕ
  total_years : ℕ
  self_funding : ℚ
  tax_rate : ℚ
  years : List String
  revenue_array : List ℚ
  expenses_array : List ℚ
  net_income_values : List ℚ
  owner_drawings : List ℚ
  retained_earnings : List ℚ
  equipment_gross : List ℚ
  accumulated_depreciation : List ℚ
  net_equipment : List ℚ
  investments : List ℚ
  accounts_receivable : List ℚ
  accounts_payable : List ℚ
  prepaid_expenses : List ℚ
  accrued_expenses : List ℚ
  taxes_payable : List ℚ
  short_term_loans : List ℚ
  long_term_loans : List ℚ
  cash : List ℚ
  validation_error_years : List ℕ
deriving DecidableEq, Repr

/-- The pure tail of `_generate_balance_sheet`'s body, up to line-item
assembly.  The transaction-accumulation cash loop of the source is omitted:
the closed-form loop that follows it overwrites every entry of `cash`, so it
is dead code.  Index reads are modelled with `get0`; every read is in range
on the non-degraded path because the re-invoked income statement can only
degrade when one of the parses / projections re-run here fails first. -/
def bsArraysCore (cy : ℤ) (d : InputData) (yib fy : ℕ)
    (self_funding tax_rate : ℚ) (revenue_data : RevenueData)
    (operating_expenses : OpexData) : BSArrays :=
  let total_years := yib + fy
  let years := (List.range total_years).map
    (fun (i : ℕ) => toString (cy - (yib : ℤ) + 1 + (i : ℤ)))
  let depreciation_data := calculateDepreciation d.historicalEquipment yib fy
  let revenue_array := sliceFill revenue_data.total_revenue total_years
  let expenses_array := sliceFill operating_expenses.total_operating_expenses total_years
  let income_statement_data := genIncomeStatement cy d
  let net_income_values :=
    match income_statement_data.line_items.find? (fun it => it.label == "NET INCOME") with
    | some item => item.values.take total_years
    | none => seqMap total_years (fun i =>
        let simple_net := get0 revenue_array i - get0 expenses_array i
        if simple_net > 0 then simple_net - simple_net * tax_rate else simple_net)
  let owner_drawings :=
    ensureLen (calculateOwnerCompensation (d.ownerDrawings.getD {}) yib fy) total_years
  let retained_earnings := seqMap total_years (reVal net_income_values owner_drawings)
  let depreciation_bs := sliceFill depreciation_data total_years
  let equipment_gross := seqMap total_years (fun i =>
    if i < yib then equipGrossVal d.historicalEquipment i
    else if yib > 0 then equipGrossVal d.historicalEquipment (yib - 1) else 0)
  let accumulated_depreciation := seqMap total_years (accDepVal depreciation_bs)
  let net_equipment := seqMap total_years (fun i =>
    get0 equipment_gross i - get0 accumulated_depreciation i)
  let investments := seqMap total_years (fun i =>
    if i < yib then invAmtVal d.historicalInvestments i
    else if yib > 0 then invAmtVal d.historicalInvestments (yib - 1) else 0)
  let accounts_receivable := revenue_array.map (fun revenue => revenue * (1 / 10))
  let accounts_payable := expenses_array.map (fun expense => expense * (1 / 5))
  let prepaid_expenses := expenses_array.map (fun expense => expense * (1 / 20))
  let accrued_expenses := expenses_array.map (fun expense => expense * (1 / 10))
  let taxes_payable :=
    match income_statement_data.line_items.find?
        (fun it => strContains it.label "Tax Provision") with
    | some item => (item.values.take total_years).map (fun tax => tax * (1 / 2))
    | none => seqMap total_years (fun i =>
        let net_income := get0 revenue_array i - get0 expenses_array i
        if net_income > 0 then net_income * tax_rate * (1 / 2) else 0)
  let short_term_loans := seqMap total_years (fun i =>
    if i < yib then stLoanVal d.historicalLoans i
    else if yib > 0 then stLoanVal d.historicalLoans (yib - 1) else 0)
  let long_term_loans := seqMap total_years (fun i =>
    if i < yib then ltLoanVal d.historicalLoans i
    else if yib > 0 then ltLoanVal d.historicalLoans (yib - 1) else 0)
  let cash := seqMap total_years (fun i =>
    self_funding + get0 retained_earnings i
      - (get0 accounts_receivable i + get0 prepaid_expenses i
          - get0 accounts_payable i - get0 accrued_expenses i
          - get0 taxes_payable i))
  let cash := ensureLen cash total_years
  let accounts_receivable := ensureLen accounts_receivable total_years
  let prepaid_expenses := ensureLen prepaid_expenses total_years
  let equipment_gross := ensureLen equipment_gross total_years
  let accumulated_depreciation := ensureLen accumulated_depreciation total_years
  let net_equipment := ensureLen net_equipment total_years
  let investments := ensureLen investments total_years
  let accounts_payable := ensureLen accounts_payable total_years
  let short_term_loans := ensureLen short_term_loans total_years
  let accrued_expenses := ensureLen accrued_expenses total_years
  let taxes_payable := ensureLen taxes_payable total_years
  let long_term_loans := ensureLen long_term_loans total_years
  let retained_earnings := ensureLen retained_earnings total_years
  let owner_drawings := ensureLen owner_drawings total_years
  let validation_error_years := (List.range total_years).filter (fun i =>
    let total_assets := get0 cash i + get0 accounts_receivable i
      + get0 prepaid_expenses i + get0 net_equipment i + get0 investments i
    let total_liabilities := get0 accounts_payable i + get0 short_term_loans i
      + get0 accrued_expenses i + get0 taxes_payable i + get0 long_term_loans i
    let total_equity := self_funding + get0 retained_earnings i
    |total_assets - (total_liabilities + total_equity)| > 1 / 100)
  { yib, fy, total_years, self_funding, tax_rate, years
    revenue_array, expenses_array, net_income_values, owner_drawings
    retained_earnings, equipment_gross, accumulated_depreciation
    net_equipment, investments, accounts_receivable, accounts_payable
    prepaid_expenses, accrued_expenses, taxes_payable, short_term_loans
    long_term_loans, cash, validation_error_years }

/-- The fallible steps of `_generate_balance_sheet`'s body; the rest is
`bsArraysCore`. -/
def bsArrays (cy : ℤ) (d : InputData) : Except Unit BSArrays := do
  let yib ← parseNat d.yearsInBusiness 3
  let fy ← parseNat d.forecastYears 5
  let self_funding ← parseFloat d.selfFunding 0
  let tax_rate := (← parseFloat d.taxRate 25) / 100
  let revenue_growth_rate := (← parseFloat d.revenueGrowthRate 0) / 100
  let customer_growth_rate := (← parseFloat d.customerGrowthRate 0) / 100
  let revenue_data ← calculateRevenueBreakdown d.historicalServices yib fy
    revenue_growth_rate customer_growth_rate d.serviceBusinessModel
  let expense_growth_rate := (← parseFloat d.expenseGrowthRate 0) / 100
  let operating_expenses ← calculateOperatingExpenses d.historicalExpenses yib fy
    expense_growth_rate
  Except.ok (bsArraysCore cy d yib fy self_funding tax_rate revenue_data
    operating_expenses)

/-- The line-item assembly of `_generate_balance_sheet` (all labels static). -/
def mkBalanceSheetStatement (a : BSArrays) : Statement :=
  let t := a.total_years
  { years := a.years
    line_items :=
      [ { label := "ASSETS", values := List.replicate t 0, is_header := true },
        { label := "Current Assets", values := List.replicate t 0, is_header := true },
        { label := "    Cash and Cash Equivalents", values := a.cash, is_sub_item := true },
        { label := "    Accounts Receivable", values := a.accounts_receivable, is_sub_item := true },
        { label := "    Prepaid Expenses", values := a.prepaid_expenses, is_sub_item := true },
        { label := "    Other Current Assets", values := List.replicate t 0, is_sub_item := true },
        { label := "Total Current Assets",
          values := zipAdd (zipAdd a.cash a.accounts_receivable) a.prepaid_expenses,
          is_total := true },
        spacerRow t,
        { label := "Non-Current Assets", values := List.replicate t 0, is_header := true },
        { label := "    Property, Plant & Equipment (Gross)", values := a.equipment_gross, is_sub_item := true },
        { label := "    Less: Accumulated Depreciation",
          values := a.accumulated_depreciation.map (fun x => -x), is_sub_item := true },
        { label := "    Net Equipment", values := a.net_equipment, is_sub_item := true },
        { label := "    Investments", values := a.investments, is_sub_item := true },
        { label := "    Intangible Assets (if applicable)", values := List.replicate t 0, is_sub_item := true },
        { label := "Total Non-Current Assets",
          values := zipAdd a.net_equipment a.investments, is_total := true },
        spacerRow t,
        { label := "TOTAL ASSETS",
          values := zipAdd (zipAdd (zipAdd (zipAdd a.cash a.accounts_receivable)
            a.prepaid_expenses) a.net_equipment) a.investments,
          is_total := true },
        spacerRow t,
        { label := "LIABILITIES", values := List.replicate t 0, is_header := true },
        { label := "Current Liabilities", values := List.replicate t 0, is_header := true },
        { label := "    Accounts Payable", values := a.accounts_payable, is_sub_item := true },
        { label := "    Short-Term Loans (Due < 1 Year)", values := a.short_term_loans, is_sub_item := true },
        { label := "    Accrued Expenses", values := a.accrued_expenses, is_sub_item := true },
        { label := "    Taxes Payable", values := a.taxes_payable, is_sub_item := true },
        { label := "Total Current Liabilities",
          values := zipAdd (zipAdd (zipAdd a.accounts_payable a.short_term_loans)
            a.accrued_expenses) a.taxes_payable,
          is_total := true },
        spacerRow t,
        { label := "Non-Current Liabilities", values := List.replicate t 0, is_header := true },
        { label := "    Long-Term Loans", values := a.long_term_loans, is_sub_item := true },
        { label := "    Lease Liabilities (if any)", values := List.replicate t 0, is_sub_item := true },
        { label := "    Deferred Tax Liabilities", values := List.replicate t 0, is_sub_item := true },
        { label := "Total Non-Current Liabilities", values := a.long_term_loans, is_total := true },
        spacerRow t,
        { label := "TOTAL LIABILITIES",
          values := zipAdd (zipAdd (zipAdd (zipAdd a.accounts_payable a.short_term_loans)
            a.accrued_expenses) a.taxes_payable) a.long_term_loans,
          is_total := true },
        spacerRow t,
        { label := "EQUITY", values := List.replicate t 0, is_header := true },
        { label := "    Common Stock / Share Capital", values := List.replicate t a.self_funding, is_sub_item := true },
        { label := "    Shareholder Contributions", values := List.replicate t 0, is_sub_item := true },
        { label := "    Retained Earnings", values := a.retained_earnings, is_sub_item := true },
        { label := "    Other Comprehensive Income (OCI)", values := List.replicate t 0, is_sub_item := true },
        { label := "TOTAL EQUITY",
          values := a.retained_earnings.map (fun re => a.self_funding + re), is_total := true },
        spacerRow t,
        { label := "TOTAL LIABILITIES & EQUITY",
          values := List.zipWith (fun x re => x + a.self_funding + re)
            (zipAdd (zipAdd (zipAdd (zipAdd a.accounts_payable a.short_term_loans)
              a.accrued_expenses) a.taxes_payable) a.long_term_loans)
            a.retained_earnings,
          is_total := true } ] }

/-- The degraded balance sheet returned by the `except` handler. -/
def bsFallback (cy : ℤ) : Statement :=
  { years := (List.range 5).map (fun (i : ℕ) => "FY" ++ toString (cy + (i : ℤ)))
    line_items :=
      [ { label := "Assets", values := List.replicate 5 0 },
        { label := "Liabilities", values := List.replicate 5 0 },
        { label := "Equity", values := List.replicate 5 0 } ] }

/-- `_generate_balance_sheet`: the body wrapped in its `try/except`. -/
def genBalanceSheet (cy : ℤ) (d : InputData) : Statement :=
  match bsArrays cy d with
  | .ok a => mkBalanceSheetStatement a
  | .error _ => bsFallback cy

/-! ## Cash flow statement (`_generate_cash_flow_statement`) -/

/-- Total loan amount taken out in one historical year. -/
def histLoanAmt (historical_loans : List LoanYear) (i : ℕ) : ℚ :=
  match historical_loans[i]? with
  | some yr => (yr.loans.map (fun l => l.amount)).sum
  | none => 0

/-- The fallback ending-cash recursion used when the balance sheet exposes no
cash line: self-funding plus the cumulative three-section net change. -/
def fallbackEndCash (self_funding : ℚ) (net_change : List ℚ) : ℕ → ℚ
  | 0 => self_funding
  | i + 1 => fallbackEndCash self_funding net_change i + get0 net_change (i + 1)

/-- The local arrays of `_generate_cash_flow_statement`'s body. -/
structure CFArrays where
  yib : ℕ
  fy : ℕ
  total_years : ℕ
  tax_rate : ℚ
  self_funding : ℚ
  years : List String
  owner_drawings : List ℚ
  revenue_cf : List ℚ
  expenses_cf : List ℚ
  depreciation_cf : List ℚ
  net_income : List ℚ
  accounts_receivable : List ℚ
  accounts_payable : List ℚ
  prepaid_expenses : List ℚ
  changes_in_ar : List ℚ
  changes_in_ap : List ℚ
  changes_in_prepaid : List ℚ
  capital_expenditures : List ℚ
  investment_purchases : List ℚ
  loan_proceeds : List ℚ
  loan_repayments : List ℚ
  owner_investments : List ℚ
  net_cash_from_operations : List ℚ
  net_cash_from_investing : List ℚ
  net_cash_from_financing : List ℚ
  ending_cash : List ℚ
  beginning_cash : List ℚ
  net_change_in_cash : List ℚ
deriving DecidableEq, Repr

/-- The pure tail of `_generate_cash_flow_statement`'s body, up to line-item
assembly.  It re-invokes the (already `try/except`-wrapped) income-statement
and balance-sheet generators and reads their line items by label, exactly as
the source does. -/
def cfArraysCore (cy : ℤ) (d : InputData) (yib fy : ℕ)
    (tax_rate self_funding : ℚ) (revenue_data : RevenueData)
    (operating_expenses : OpexData) : CFArrays :=
  let total_years := yib + fy
  let years := (List.range total_years).map
    (fun (i : ℕ) => toString (cy - (yib : ℤ) + 1 + (i : ℤ)))
  let depreciation_data := calculateDepreciation d.historicalEquipment yib fy
  let owner_drawings :=
    ensureLen (calculateOwnerCompensation (d.ownerDrawings.getD {}) yib fy) total_years
  let revenue_cf := sliceFill revenue_data.total_revenue total_years
  let expenses_cf := sliceFill operating_expenses.total_operating_expenses total_years
  let depreciation_cf := sliceFill depreciation_data total_years
  let income_statement_data := genIncomeStatement cy d
  let net_income :=
    match income_statement_data.line_items.find? (fun it => it.label == "NET INCOME") with
    | some item => ensureLen (item.values.take total_years) total_years
    | none => seqMap total_years (fun i =>
        let net_income_before_tax := get0 revenue_cf i - get0 expenses_cf i
        if net_income_before_tax > 0 then
          net_income_before_tax - net_income_before_tax * tax_rate
        else net_income_before_tax)
  let balance_sheet_data := genBalanceSheet cy d
  let accounts_receivable :=
    match balance_sheet_data.line_items.find?
        (fun it => strContains it.label "Accounts Receivable") with
    | some item => item.values.take total_years
    | none => revenue_cf.map (fun revenue => revenue * (1 / 10))
  let accounts_payable :=
    match balance_sheet_data.line_items.find?
        (fun it => strContains it.label "Accounts Payable") with
    | some item => item.values.take total_years
    | none => expenses_cf.map (fun expense => expense * (1 / 5))
  let prepaid_expenses :=
    match balance_sheet_data.line_items.find?
        (fun it => strContains it.label "Prepaid Expenses") with
    | some item => item.values.take total_years
    | none => expenses_cf.map (fun expense => expense * (1 / 20))
  let changes_in_ar := seqMap total_years (fun i =>
    if 0 < i ∧ i < accounts_receivable.length then
      get0 accounts_receivable i - get0 accounts_receivable (i - 1) else 0)
  let changes_in_ap := seqMap total_years (fun i =>
    if 0 < i ∧ i < accounts_payable.length then
      get0 accounts_payable i - get0 accounts_payable (i - 1) else 0)
  let changes_in_prepaid := seqMap total_years (fun i =>
    if 0 < i ∧ i < prepaid_expenses.length then
      get0 prepaid_expenses i - get0 prepaid_expenses (i - 1) else 0)
  let historical_capex := (List.range yib).map (equipGrossVal d.historicalEquipment)
  let capital_expenditures :=
    match balance_sheet_data.line_items.find?
        (fun it => strContains it.label "Property, Plant & Equipment (Gross)") with
    | some item =>
      let equipment_gross_balances := item.values.take total_years
      seqMap total_years (fun i =>
        if i < yib then equipGrossVal d.historicalEquipment i
        else if 0 < i then
          let equipment_change := get0 equipment_gross_balances i
            - get0 equipment_gross_balances (i - 1)
          if equipment_change > 0 then equipment_change
          else if historical_capex ≠ [] ∧ historical_capex.any (fun c => c > 0) then
            (historical_capex.sum
              / ((historical_capex.filter (fun c => c > 0)).length : ℚ)) * (1 / 2)
          else 0
        else 0)
    | none => seqMap total_years (fun i =>
        if i < yib then equipGrossVal d.historicalEquipment i else 0)
  let investment_purchases := seqMap total_years (fun i =>
    if i < yib then invAmtVal d.historicalInvestments i else 0)
  let balance_sheet_data2 := genBalanceSheet cy d
  let stLine := balance_sheet_data2.line_items.find?
    (fun it => strContains it.label "Short-Term Loans")
  let ltLine := balance_sheet_data2.line_items.find?
    (fun it => strContains it.label "Long-Term Loans")
  let loan_proceeds :=
    match stLine, ltLine with
    | some st, some lt =>
      let short_term_balances := st.values.take total_years
      let long_term_balances := lt.values.take total_years
      seqMap total_years (fun i =>
        let base := if i < yib then histLoanAmt d.historicalLoans i else 0
        if 0 < i then
          let loan_change :=
            (get0 short_term_balances i + get0 long_term_balances i)
              - (get0 short_term_balances (i - 1) + get0 long_term_balances (i - 1))
          if loan_change > 0 ∧ yib ≤ i then loan_change else base
        else base)
    | _, _ => seqMap total_years (fun i =>
        if i < yib then histLoanAmt d.historicalLoans i else 0)
  let loan_repayments :=
    match stLine, ltLine with
    | some st, some lt =>
      let short_term_balances := st.values.take total_years
      let long_term_balances := lt.values.take total_years
      seqMap total_years (fun i =>
        if 0 < i then
          let loan_change :=
            (get0 short_term_balances i + get0 long_term_balances i)
              - (get0 short_term_balances (i - 1) + get0 long_term_balances (i - 1))
          if loan_change < 0 then |loan_change| else 0
        else 0)
    | _, _ => List.replicate total_years 0
  let owner_investments := seqMap total_years (fun i =>
    if i = 0 then self_funding else 0)
  let net_cash_from_operations := seqMap total_years (fun i =>
    get0 net_income i + get0 depreciation_cf i - get0 changes_in_ar i
      + get0 changes_in_ap i - get0 changes_in_prepaid i)
  let net_cash_from_investing := seqMap total_years (fun i =>
    -(get0 capital_expenditures i) - get0 investment_purchases i)
  let net_cash_from_financing := seqMap total_years (fun i =>
    get0 owner_investments i - get0 owner_drawings i
      + get0 loan_proceeds i - get0 loan_repayments i)
  let net_change_sections := seqMap total_years (fun i =>
    get0 net_cash_from_operations i + get0 net_cash_from_investing i
      + get0 net_cash_from_financing i)
  let balance_sheet_data3 := genBalanceSheet cy d
  let ending_cash :=
    match balance_sheet_data3.line_items.find?
        (fun it => strContains it.label "Cash and Cash Equivalents") with
    | some item => ensureLen (item.values.take total_years) total_years
    | none => seqMap total_years (fallbackEndCash self_funding net_change_sections)
  let beginning_cash := seqMap total_years (fun i =>
    if i = 0 then 0 else get0 ending_cash (i - 1))
  let net_change_in_cash := seqMap total_years (fun i =>
    get0 ending_cash i - get0 beginning_cash i)
  { yib, fy, total_years, tax_rate, self_funding, years, owner_drawings
    revenue_cf, expenses_cf, depreciation_cf, net_income
    accounts_receivable, accounts_payable, prepaid_expenses
    changes_in_ar, changes_in_ap, changes_in_prepaid
    capital_expenditures, investment_purchases, loan_proceeds
    loan_repayments, owner_investments, net_cash_from_operations
    net_cash_from_investing, net_cash_from_financing
    ending_cash, beginning_cash, net_change_in_cash }

/-- The fallible steps of `_generate_cash_flow_statement`'s body: the scalar
parses, the two fallible projections, and the `owner_investments[0]` write
that raises `IndexError` on an empty year range; the rest is `cfArraysCore`.
-/
def cfArrays (cy : ℤ) (d : InputData) : Except Unit CFArrays := do
  let yib ← parseNat d.yearsInBusiness 3
  let fy ← parseNat d.forecastYears 5
  let tax_rate := (← parseFloat d.taxRate 25) / 100
  let revenue_growth_rate := (← parseFloat d.revenueGrowthRate 0) / 100
  let customer_growth_rate := (← parseFloat d.customerGrowthRate 0) / 100
  let revenue_data ← calculateRevenueBreakdown d.historicalServices yib fy
    revenue_growth_rate customer_growth_rate d.serviceBusinessModel
  let expense_growth_rate := (← parseFloat d.expenseGrowthRate 0) / 100
  let operating_expenses ← calculateOperatingExpenses d.historicalExpenses yib fy
    expense_growth_rate
  let self_funding ← parseFloat d.selfFunding 0
  if yib + fy = 0 then Except.error ()
  else Except.ok (cfArraysCore cy d yib fy tax_rate self_funding revenue_data
    operating_expenses)

/-- The line-item assembly of `_generate_cash_flow_statement`. -/
def mkCashFlowStatement (a : CFArrays) : Statement :=
  let t := a.total_years
  { years := a.years
    line_items :=
      [ { label := "OPERATING ACTIVITIES", values := List.replicate t 0, is_header := true },
        { label := "    Net Income", values := a.net_income, is_sub_item := true },
        { label := "    Depreciation & Amortization (Add Back)", values := a.depreciation_cf, is_sub_item := true },
        { label := "    Changes in Working Capital", values := List.replicate t 0, is_header := true },
        { label := "        Accounts Receivable", values := a.changes_in_ar.map (fun x => -x), is_sub_item := true },
        { label := "        Accounts Payable", values := a.changes_in_ap, is_sub_item := true },
        { label := "        Prepaid Expenses", values := a.changes_in_prepaid.map (fun x => -x), is_sub_item := true },
        { label := "    Net Cash from Operations", values := a.net_cash_from_operations, is_total := true },
        spacerRow t,
        { label := "INVESTING ACTIVITIES", values := List.replicate t 0, is_header := true },
        { label := "    Capital Expenditures", values := a.capital_expenditures.map (fun x => -x), is_sub_item := true },
        { label := "    Investment Purchases", values := a.investment_purchases.map (fun x => -x), is_sub_item := true },
        { label := "    Net Cash from Investing", values := a.net_cash_from_investing, is_total := true },
        spacerRow t,
        { label := "FINANCING ACTIVITIES", values := List.replicate t 0, is_header := true },
        { label := "    Owner Investments", values := a.owner_investments, is_sub_item := true },
        { label := "    Owner Drawings", values := a.owner_drawings.map (fun x => -x), is_sub_item := true },
        { label := "    Loan Proceeds", values := a.loan_proceeds, is_sub_item := true },
        { label := "    Loan Repayments", values := a.loan_repayments.map (fun x => -x), is_sub_item := true },
        { label := "    Net Cash from Financing", values := a.net_cash_from_financing, is_total := true },
        spacerRow t,
        { label := "NET CHANGE IN CASH", values := a.net_change_in_cash, is_total := true },
        { label := "    Beginning Cash", values := a.beginning_cash, is_sub_item := true },
        { label := "    Ending Cash", values := a.ending_cash, is_total := true } ] }

/-- The degraded cash-flow statement returned by the `except` handler. -/
def cfFallback (cy : ℤ) : Statement :=
  { years := (List.range 5).map (fun (i : ℕ) => "FY" ++ toString (cy + (i : ℤ)))
    line_items :=
      [ { label := "Operating Activities", values := List.replicate 5 0 },
        { label := "Investing Activities", values := List.replicate 5 0 },
        { label := "Financing Activities", values := List.replicate 5 0 },
        { label := "Net Change in Cash", values := List.replicate 5 0 } ] }

/-- `_generate_cash_flow_statement`: the body wrapped in its `try/except`. -/
def genCashFlowStatement (cy : ℤ) (d : InputData) : Statement :=
  match cfArrays cy d with
  | .ok a => mkCashFlowStatement a
  | .error _ => cfFallback cy

/-- `ServiceHistoricalService.validate_historical_data`: valid iff historical
services exist, every year carries a `services` key, and no service has
negative revenue or cost.  (The growth-rate checks only add warnings.) -/
def validateHistoricalData (d : InputData) : Bool :=
  d.historicalServices ≠ [] ∧
    d.historicalServices.all (fun yr =>
      match yr.services with
      | none => false
      | some services =>
        services.all (fun s => 0 ≤ s.historicalRevenue ∧ 0 ≤ s.cost))

/-! ## Example inputs used by witnesses and counterexamples -/

/-- A small well-formed service-business input: one historical year, one
forecast year, one service (revenue 100, 2 clients, cost 40), rent expense
30, one machine (50 over 5 years), one two-year loan of 20 at 5%, owner
drawings 5 and self-funding 10. -/
def exService : ServiceRecord :=
  { name := "Consulting", historicalRevenue := 100, historicalClients := 2, cost := 40 }

def dEx : InputData where
  yearsInBusiness := .num 1
  forecastYears := .num 1
  taxRate := .num 25
  selfFunding := .num 10
  revenueGrowthRate := .num 0
  customerGrowthRate := .num 0
  expenseGrowthRate := .num 0
  historicalServices := [⟨some [exService]⟩]
  historicalExpenses := [⟨[{ historicalAmount := 30, category := "Rent" }]⟩]
  historicalEquipment := [⟨[{ cost := 50, usefulLife := 5 }]⟩]
  historicalLoans := [⟨[{ amount := 20, rate := 5, yearsKey := some 2 }]⟩]
  ownerDrawings := some { amount := 5 }

/-- A validation-passing input holding only a piece of equipment (cost 100,
five-year life): one historical year, no forecast years, no self-funding. -/
def dC1 : InputData where
  yearsInBusiness := .num 1
  forecastYears := .num 0
  taxRate := .num 25
  selfFunding := .num 0
  historicalServices := [⟨some []⟩]
  historicalEquipment := [⟨[{ cost := 100, usefulLife := 5 }]⟩]

/-- An input whose `taxRate` fails `float()` coercion, driving every
generator body into its exception handler. -/
def dBad : InputData where
  taxRate := .bad

/-! ## Generic list-access lemmas -/

theorem get0_append_replicate (l : List ℚ) (k i : ℕ) :
    get0 (l ++ List.replicate k 0) i = get0 l i := by
  unfold get0
  rcases lt_or_le i l.length with h | h
  · simp [List.getD_eq_getElem?_getD, List.getElem?_append, h]
  · simp [List.getD_eq_getElem?_getD, List.getElem?_append, Nat.not_lt.2 h,
      List.getElem?_replicate, List.getElem?_eq_none h]
    split <;> simp

theorem get0_take (l : List ℚ) (n i : ℕ) (h : i < n) :
    get0 (l.take n) i = get0 l i := by
  simp [get0, List.getD_eq_getElem?_getD, List.getElem?_take, h]

theorem get0_ensureLen (l : List ℚ) (n i : ℕ) (h : i < n) :
    get0 (ensureLen l n) i = get0 l i := by
  unfold ensureLen
  split
  · exact get0_append_replicate l _ i
  · split
    · exact get0_take l n i h
    · rfl

theorem get0_sliceFill (l : List ℚ) (n i : ℕ) (h : i < n) :
    get0 (sliceFill l n) i = get0 l i := by
  unfold sliceFill
  rw [get0_append_replicate, get0_take l n i h]

/-! ## DCF-primitive lemmas and claims C6, C7, C8 -/

/-- The Newton-Raphson loop only ever returns a rate at which the absolute
NPV is below tolerance. -/
theorem irrLoop_some_abs_lt {cfs : List ℚ} {tol : ℚ} :
    ∀ {n : ℕ} {rate r : ℚ}, irrLoop cfs tol n rate = some r →
      |(cfs.enum.map (fun p => p.2 / (1 + r) ^ p.1)).sum| < tol := by
  intro n
  induction n with
  | zero => intro rate r h; simp [irrLoop] at h
  | succ n ih =>
    intro rate r h
    simp only [irrLoop] at h
    split_ifs at h with h1 h2 h3
    · cases h
      exact h1
    · exact ih h

/-- If `calculate_irr` returns a rate, the NPV there is below tolerance. -/
theorem calculate_irr_some_npv (cfs : List ℚ) (g : ℚ) (mi : ℕ) (tol r : ℚ)
    (h : calculate_irr cfs g mi tol = some r) : |calculate_npv cfs r| < tol := by
  unfold calculate_irr at h
  split_ifs at h with h1 h2 h3
  · rw [calculate_npv, if_neg h1]
    exact irrLoop_some_abs_lt h

/-- C7.  `calculate_irr` returns `None` for same-sign cash-flow lists (in
particular for `[100, 100, 100]`); whenever it does return a rate `r`, that
rate satisfies `|npv(cfs, r)| < tol`; and on `[-100, 50, 60]` it does return
such a rate for the default guess/iteration/tolerance parameters. -/
theorem irr_sign_guard_and_convergence :
    calculate_irr [100, 100, 100] = none ∧
    (∀ (cfs : List ℚ) (g : ℚ) (mi : ℕ) (tol : ℚ),
      cfs.all (fun cf => 0 ≤ cf) = true ∨ cfs.all (fun cf => cf ≤ 0) = true →
      calculate_irr cfs g mi tol = none) ∧
    (∀ (cfs : List ℚ) (g : ℚ) (mi : ℕ) (tol r : ℚ),
      calculate_irr cfs g mi tol = some r → |calculate_npv cfs r| < tol) ∧
    (∃ r, calculate_irr [-100, 50, 60] = some r ∧
      |calculate_npv [-100, 50, 60] r| < 1 / 1000000) := by
  refine ⟨by decide, ?_, calculate_irr_some_npv, ?_⟩
  · intro cfs g mi tol h
    unfold calculate_irr
    rcases h with h | h
    · simp [h]
    · by_cases he : cfs = [] <;> simp [he, h]
  · have hs : (calculate_irr [-100, 50, 60] (1 / 10) 50 (1 / 1000000)).isSome = true := by
      decide
    obtain ⟨r, hr⟩ := Option.isSome_iff_exists.mp hs
    exact ⟨r, hr, calculate_irr_some_npv _ _ _ _ _ hr⟩

/-- Witness for C7: the same-sign guard applied to a concrete list. -/
theorem irr_sign_guard_witness : calculate_irr [5, 5] (1 / 10) 50 (1 / 1000000) = none :=
  irr_sign_guard_and_convergence.2.1 [5, 5] (1 / 10) 50 (1 / 1000000) (Or.inl (by decide))

/-- C6 (the sentinel holds; the interpolation does not match the spec).
`calculate_payback_period` returns the `999.0` sentinel for `[-100, 10, 10]`,
whose cumulative sum never turns non-negative; but on `[-100, 60, 60]` it
returns `2 + 40/60 = 8/3 ≈ 2.667`, not the linearly interpolated
`1 + 40/60 ≈ 1.667` inside the crossing period: the source computes
`i - prev_cumulative / cf` at the crossing index `i` instead of
`(i - 1) + (-prev_cumulative) / cf`. -/
theorem payback_sentinel_and_offbyone :
    calculate_payback_period [-100, 10, 10] = some 999 ∧
    calculate_payback_period [-100, 60, 60] = some (8 / 3) := by
  constructor <;> decide

/-- C8.  With no terminal value, `calculate_dcf_value` equals
`calculate_npv / (1 + r)`: NPV leaves period 0 undiscounted while the DCF
convention discounts every period once more.  The two conventions are
distinct: on `[100]` at 10% NPV gives 100, DCF gives `1000/11`. -/
theorem dcf_npv_shift_relation :
    (∀ (cfs : List ℚ) (r : ℚ), cfs ≠ [] → 1 + r ≠ 0 →
      calculate_dcf_value cfs r none none = calculate_npv cfs r / (1 + r)) ∧
    calculate_npv [100] (1 / 10) = 100 ∧
    calculate_dcf_value [100] (1 / 10) none none = 1000 / 11 := by
  refine ⟨?_, by decide, by decide⟩
  intro cfs r hne _
  rw [calculate_dcf_value, calculate_npv, if_neg hne, if_neg hne]
  have hfun : (fun p : ℕ × ℚ => p.2 / (1 + r) ^ (p.1 + 1))
      = fun p : ℕ × ℚ => p.2 / (1 + r) ^ p.1 * (1 + r)⁻¹ := by
    funext p
    rw [pow_succ, ← div_div, div_eq_mul_inv]
  simp only [hfun]
  rw [List.sum_map_mul_right, div_eq_mul_inv]

/-- Witness for C8: the shift relation applied to a concrete list and rate. -/
theorem dcf_npv_shift_witness :
    calculate_dcf_value [100, 50] (1 / 10) none none
      = calculate_npv [100, 50] (1 / 10) / (1 + 1 / 10) :=
  dcf_npv_shift_relation.1 [100, 50] (1 / 10) (by decide) (by norm_num)

/-! ## Loss-carryforward claims C4 and C10 -/

/-- The loss-carryforward rule as the spec words it: a negative-EBT year
accrues `|EBT|` to the accumulator and pays zero; a non-negative-EBT year
offsets taxable income by `min(accumulated_losses, EBT)` before applying the
rate. -/
def claimTaxes (tax_rate : ℚ) : ℚ → List ℚ → List ℚ
  | _, [] => []
  | acc, e :: es =>
    if e < 0 then 0 :: claimTaxes tax_rate (acc + |e|) es
    else (e - min acc e) * tax_rate :: claimTaxes tax_rate (acc - min acc e) es

/-- Starting from a non-negative accumulator, the source's tax loop computes
exactly the spec's offset-by-`min` rule. -/
theorem lossCarryGo_eq_claimTaxes (tax_rate : ℚ) :
    ∀ (ebt : List ℚ) (acc : ℚ), 0 ≤ acc →
      (lossCarryGo tax_rate acc ebt).1 = claimTaxes tax_rate acc ebt := by
  intro ebt
  induction ebt with
  | nil => intro acc _; simp [lossCarryGo, claimTaxes]
  | cons e es ih =>
    intro acc hacc
    by_cases he : e < 0
    · simp only [lossCarryGo, claimTaxes, if_pos he]
      rw [ih (acc + |e|) (by positivity)]
    · have he' : 0 ≤ e := not_lt.mp he
      by_cases ha : acc > 0
      · simp only [lossCarryGo, claimTaxes, if_neg he, if_pos ha]
        have hmin_le_acc : min acc e ≤ acc := min_le_left acc e
        have hmin_le_e : min acc e ≤ e := min_le_right acc e
        rw [ih (acc - min acc e) (by linarith)]
        congr 1
        by_cases ht : e - min acc e > 0
        · rw [if_pos ht]
        · rw [if_neg ht]
          have : e - min acc e = 0 := le_antisymm (not_lt.mp ht) (by linarith)
          rw [this, zero_mul]
      · have ha0 : acc = 0 := le_antisymm (not_lt.mp ha) hacc
        subst ha0
        simp only [lossCarryGo, claimTaxes, if_neg he, if_neg ha]
        rw [ih 0 le_rfl, min_eq_left he', sub_zero, sub_zero]

/-- C4.  The income-statement tax loop implements the spec's
loss-carryforward rule from an accumulator of 0, and on the EBT series
`[-100, -50, 200]` at 25% yields taxes `[0, 0, 12.5]` and net income
`[-100, -50, 187.5]` (net income is `EBT[i] - taxes[i]`, the loop used by
`incomeArraysCore`). -/
theorem loss_carryforward_taxes :
    (∀ (tax_rate : ℚ) (ebt : List ℚ),
      lossCarryTaxes tax_rate ebt = claimTaxes tax_rate 0 ebt) ∧
    lossCarryTaxes (25 / 100) [-100, -50, 200] = [0, 0, 25 / 2] ∧
    seqMap 3 (fun i => get0 [-100, -50, 200] i
      - get0 (lossCarryTaxes (25 / 100) [-100, -50, 200]) i) = [-100, -50, 375 / 2] := by
  refine ⟨fun tax_rate ebt => ?_, by decide, by decide⟩
  exact lossCarryGo_eq_claimTaxes tax_rate ebt 0 le_rfl

/-- For a non-negative rate and accumulator, every tax in the loop is
non-negative and the accumulator remains non-negative (its final value shown
here; applying the statement to any suffix gives every intermediate value). -/
theorem lossCarryGo_nonneg (tax_rate : ℚ) (hrate : 0 ≤ tax_rate) :
    ∀ (ebt : List ℚ) (acc : ℚ), 0 ≤ acc →
      (∀ t ∈ (lossCarryGo tax_rate acc ebt).1, 0 ≤ t) ∧
        0 ≤ (lossCarryGo tax_rate acc ebt).2 := by
  intro ebt
  induction ebt with
  | nil => intro acc hacc; simpa [lossCarryGo] using hacc
  | cons e es ih =>
    intro acc hacc
    by_cases he : e < 0
    · have h' := ih (acc + |e|) (by positivity)
      simp only [lossCarryGo, if_pos he]
      refine ⟨?_, h'.2⟩
      intro t ht
      rcases List.mem_cons.mp ht with rfl | ht
      · exact le_rfl
      · exact h'.1 t ht
    · have he' : 0 ≤ e := not_lt.mp he
      by_cases ha : acc > 0
      · have hmin_le_acc : min acc e ≤ acc := min_le_left acc e
        have hmin_le_e : min acc e ≤ e := min_le_right acc e
        have h' := ih (acc - min acc e) (by linarith)
        simp only [lossCarryGo, if_neg he, if_pos ha]
        refine ⟨?_, h'.2⟩
        intro t ht
        rcases List.mem_cons.mp ht with rfl | ht
        · by_cases hpos : e - min acc e > 0
          · rw [if_pos hpos]; positivity
          · rw [if_neg hpos]
        · exact h'.1 t ht
      · have h' := ih acc hacc
        simp only [lossCarryGo, if_neg he, if_neg ha]
        refine ⟨?_, h'.2⟩
        intro t ht
        rcases List.mem_cons.mp ht with rfl | ht
        · positivity
        · exact h'.1 t ht

/-! ## Success-path inversion of the generator bodies -/

theorem exceptBind_ok {α β : Type} {x : Except Unit α} {f : α → Except Unit β} {b : β}
    (h : x >>= f = .ok b) : ∃ a, x = .ok a ∧ f a = .ok b := by
  cases x with
  | error e => simp [Bind.bind, Except.bind] at h
  | ok a => exact ⟨a, rfl, by simpa [Bind.bind, Except.bind] using h⟩

/-- A successful income-statement body is `incomeArraysCore` applied to
successfully parsed scalars and projections. -/
theorem incomeArrays_ok_inv {cy : ℤ} {d : InputData} {a : ISArrays}
    (h : incomeArrays cy d = .ok a) :
    ∃ (yib fy : ℕ) (tr rgr cgr egr : ℚ) (rd : RevenueData) (oe : OpexData),
      parseNat d.yearsInBusiness 3 = .ok yib ∧
      parseNat d.forecastYears 5 = .ok fy ∧
      parseFloat d.taxRate 25 = .ok tr ∧
      parseFloat d.revenueGrowthRate 0 = .ok rgr ∧
      parseFloat d.customerGrowthRate 0 = .ok cgr ∧
      calculateRevenueBreakdown d.historicalServices yib fy (rgr / 100) (cgr / 100)
        d.serviceBusinessModel = .ok rd ∧
      parseFloat d.expenseGrowthRate 0 = .ok egr ∧
      calculateOperatingExpenses d.historicalExpenses yib fy (egr / 100) = .ok oe ∧
      a = incomeArraysCore cy d yib fy (tr / 100) rd oe := by
  unfold incomeArrays at h
  obtain ⟨yib, h1, h⟩ := exceptBind_ok h
  obtain ⟨fy, h2, h⟩ := exceptBind_ok h
  obtain ⟨tr, h3, h⟩ := exceptBind_ok h
  obtain ⟨rgr, h4, h⟩ := exceptBind_ok h
  obtain ⟨cgr, h5, h⟩ := exceptBind_ok h
  obtain ⟨rd, h6, h⟩ := exceptBind_ok h
  obtain ⟨egr, h7, h⟩ := exceptBind_ok h
  obtain ⟨oe, h8, h⟩ := exceptBind_ok h
  exact ⟨yib, fy, tr, rgr, cgr, egr, rd, oe, h1, h2, h3, h4, h5, h6, h7, h8,
    (Except.ok.injEq _ _ |>.mp h).symm⟩

/-- A successful balance-sheet body is `bsArraysCore` applied to successfully
parsed scalars and projections. -/
theorem bsArrays_ok_inv {cy : ℤ} {d : InputData} {a : BSArrays}
    (h : bsArrays cy d = .ok a) :
    ∃ (yib fy : ℕ) (sf tr rgr cgr egr : ℚ) (rd : RevenueData) (oe : OpexData),
      parseNat d.yearsInBusiness 3 = .ok yib ∧
      parseNat d.forecastYears 5 = .ok fy ∧
      parseFloat d.selfFunding 0 = .ok sf ∧
      parseFloat d.taxRate 25 = .ok tr ∧
      parseFloat d.revenueGrowthRate 0 = .ok rgr ∧
      parseFloat d.customerGrowthRate 0 = .ok cgr ∧
      calculateRevenueBreakdown d.historicalServices yib fy (rgr / 100) (cgr / 100)
        d.serviceBusinessModel = .ok rd ∧
      parseFloat d.expenseGrowthRate 0 = .ok egr ∧
      calculateOperatingExpenses d.historicalExpenses yib fy (egr / 100) = .ok oe ∧
      a = bsArraysCore cy d yib fy sf (tr / 100) rd oe := by
  unfold bsArrays at h
  obtain ⟨yib, h1, h⟩ := exceptBind_ok h
  obtain ⟨fy, h2, h⟩ := exceptBind_ok h
  obtain ⟨sf, h3, h⟩ := exceptBind_ok h
  obtain ⟨tr, h4, h⟩ := exceptBind_ok h
  obtain ⟨rgr, h5, h⟩ := exceptBind_ok h
  obtain ⟨cgr, h6, h⟩ := exceptBind_ok h
  obtain ⟨rd, h7, h⟩ := exceptBind_ok h
  obtain ⟨egr, h8, h⟩ := exceptBind_ok h
  obtain ⟨oe, h9, h⟩ := exceptBind_ok h
  exact ⟨yib, fy, sf, tr, rgr, cgr, egr, rd, oe, h1, h2, h3, h4, h5, h6, h7, h8, h9,
    (Except.ok.injEq _ _ |>.mp h).symm⟩

/-- A successful cash-flow body is `cfArraysCore` applied to successfully
parsed scalars and projections, over a non-empty year range. -/
theorem cfArrays_ok_inv {cy : ℤ} {d : InputData} {a : CFArrays}
    (h : cfArrays cy d = .ok a) :
    ∃ (yib fy : ℕ) (tr rgr cgr egr sf : ℚ) (rd : RevenueData) (oe : OpexData),
      parseNat d.yearsInBusiness 3 = .ok yib ∧
      parseNat d.forecastYears 5 = .ok fy ∧
      parseFloat d.taxRate 25 = .ok tr ∧
      parseFloat d.revenueGrowthRate 0 = .ok rgr ∧
      parseFloat d.customerGrowthRate 0 = .ok cgr ∧
      calculateRevenueBreakdown d.historicalServices yib fy (rgr / 100) (cgr / 100)
        d.serviceBusinessModel = .ok rd ∧
      parseFloat d.expenseGrowthRate 0 = .ok egr ∧
      calculateOperatingExpenses d.historicalExpenses yib fy (egr / 100) = .ok oe ∧
      parseFloat d.selfFunding 0 = .ok sf ∧
      yib + fy ≠ 0 ∧
      a = cfArraysCore cy d yib fy (tr / 100) sf rd oe := by
  unfold cfArrays at h
  obtain ⟨yib, h1, h⟩ := exceptBind_ok h
  obtain ⟨fy, h2, h⟩ := exceptBind_ok h
  obtain ⟨tr, h3, h⟩ := exceptBind_ok h
  obtain ⟨rgr, h4, h⟩ := exceptBind_ok h
  obtain ⟨cgr, h5, h⟩ := exceptBind_ok h
  obtain ⟨rd, h6, h⟩ := exceptBind_ok h
  obtain ⟨egr, h7, h⟩ := exceptBind_ok h
  obtain ⟨oe, h8, h⟩ := exceptBind_ok h
  obtain ⟨sf, h9, h⟩ := exceptBind_ok h
  by_cases hz : yib + fy = 0
  · rw [if_pos hz] at h
    cases h
  · rw [if_neg hz] at h
    exact ⟨yib, fy, tr, rgr, cgr, egr, sf, rd, oe, h1, h2, h3, h4, h5, h6, h7, h8, h9,
      hz, (Except.ok.injEq _ _ |>.mp h).symm⟩

/-- C10.  With a non-negative tax rate the loss-carryforward loop keeps its
accumulator non-negative from any non-negative start (so at every point of
the year-by-year loop) and emits only non-negative taxes; consequently every
element of the income statement's 'Tax Provision (with Loss Carryforward)'
series is non-negative whenever the parsed tax rate is. -/
theorem tax_provision_nonneg :
    (∀ (tax_rate : ℚ), 0 ≤ tax_rate → ∀ (ebt : List ℚ) (acc : ℚ), 0 ≤ acc →
      (∀ t ∈ (lossCarryGo tax_rate acc ebt).1, 0 ≤ t) ∧
        0 ≤ (lossCarryGo tax_rate acc ebt).2) ∧
    (∀ (cy : ℤ) (d : InputData) (a : ISArrays), incomeArrays cy d = .ok a →
      0 ≤ a.tax_rate → ∀ t ∈ a.taxes, 0 ≤ t) := by
  refine ⟨lossCarryGo_nonneg, ?_⟩
  intro cy d a h hrate t ht
  obtain ⟨yib, fy, tr, rgr, cgr, egr, rd, oe, _, _, _, _, _, _, _, _, ha⟩ :=
    incomeArrays_ok_inv h
  subst ha
  have htaxes : (incomeArraysCore cy d yib fy (tr / 100) rd oe).taxes
      = lossCarryTaxes (incomeArraysCore cy d yib fy (tr / 100) rd oe).tax_rate
        (incomeArraysCore cy d yib fy (tr / 100) rd oe).ebt := by
    simp [incomeArraysCore]
  rw [htaxes] at ht
  exact (lossCarryGo_nonneg _ hrate _ 0 le_rfl).1 t ht

/-- Witness for C10: the loop applied to a concrete rate and EBT series. -/
theorem tax_provision_nonneg_witness :
    (∀ t ∈ (lossCarryGo (1 / 4) 0 [-100, -50, 200]).1, 0 ≤ t) ∧
      0 ≤ (lossCarryGo (1 / 4) 0 [-100, -50, 200]).2 :=
  tax_provision_nonneg.1 (1 / 4) (by norm_num) [-100, -50, 200] 0 le_rfl

/-! ## C1: the balance identity -/

/-- On the non-degraded path the balance sheet's cash line satisfies the
closed form `Cash[i] = SelfFunding + RetainedEarnings[i] - (AR[i] +
Prepaid[i] - AP[i] - Accrued[i] - TaxesPayable[i])`. -/
theorem bs_cash_closed_form {cy : ℤ} {d : InputData} {a : BSArrays}
    (h : bsArrays cy d = .ok a) (i : ℕ) (hi : i < a.total_years) :
    get0 a.cash i = a.self_funding + get0 a.retained_earnings i
      - (get0 a.accounts_receivable i + get0 a.prepaid_expenses i
        - get0 a.accounts_payable i - get0 a.accrued_expenses i
        - get0 a.taxes_payable i) := by
  obtain ⟨yib, fy, sf, tr, rgr, cgr, egr, rd, oe, _, _, _, _, _, _, _, _, _, ha⟩ :=
    bsArrays_ok_inv h
  subst ha
  simp only [bsArraysCore] at hi ⊢
  simp only [get0_ensureLen _ _ _ hi, get0_seqMap _ _ _ hi]

/-- C1 (amended).  The cash closed-form holds, and it makes the per-year
balance difference `TotalAssets - (TotalLiabilities + TotalEquity)` equal
exactly `NetEquipment + Investments - ShortTermLoans - LongTermLoans` — so
the `< 0.01` balance invariant holds precisely when that combination is below
a cent, not for every valid input. -/
theorem balance_difference_identity {cy : ℤ} {d : InputData} {a : BSArrays}
    (h : bsArrays cy d = .ok a) (i : ℕ) (hi : i < a.total_years) :
    get0 a.cash i = a.self_funding + get0 a.retained_earnings i
      - (get0 a.accounts_receivable i + get0 a.prepaid_expenses i
        - get0 a.accounts_payable i - get0 a.accrued_expenses i
        - get0 a.taxes_payable i) ∧
    (get0 a.cash i + get0 a.accounts_receivable i + get0 a.prepaid_expenses i
        + get0 a.net_equipment i + get0 a.investments i)
      - ((get0 a.accounts_payable i + get0 a.short_term_loans i
          + get0 a.accrued_expenses i + get0 a.taxes_payable i
          + get0 a.long_term_loans i)
        + (a.self_funding + get0 a.retained_earnings i))
      = get0 a.net_equipment i + get0 a.investments i
        - get0 a.short_term_loans i - get0 a.long_term_loans i := by
  have hcf := bs_cash_closed_form h i hi
  exact ⟨hcf, by rw [hcf]; ring⟩

/-- The balance-sheet arrays computed for `dC1`. -/
def aC1 : BSArrays :=
  bsArraysCore 2025 dC1 1 0 0 (25 / 100) ⟨[0], [], [0]⟩ ⟨[0], []⟩

/-- Witness for the amended C1: the identity at year 0 of `dC1`. -/
theorem balance_difference_identity_witness :
    (get0 aC1.cash 0 = aC1.self_funding + get0 aC1.retained_earnings 0
      - (get0 aC1.accounts_receivable 0 + get0 aC1.prepaid_expenses 0
        - get0 aC1.accounts_payable 0 - get0 aC1.accrued_expenses 0
        - get0 aC1.taxes_payable 0)) ∧
    (get0 aC1.cash 0 + get0 aC1.accounts_receivable 0 + get0 aC1.prepaid_expenses 0
        + get0 aC1.net_equipment 0 + get0 aC1.investments 0)
      - ((get0 aC1.accounts_payable 0 + get0 aC1.short_term_loans 0
          + get0 aC1.accrued_expenses 0 + get0 aC1.taxes_payable 0
          + get0 aC1.long_term_loans 0)
        + (aC1.self_funding + get0 aC1.retained_earnings 0))
      = get0 aC1.net_equipment 0 + get0 aC1.investments 0
        - get0 aC1.short_term_loans 0 - get0 aC1.long_term_loans 0 :=
  @balance_difference_identity 2025 dC1 aC1 (by decide) 0 (by decide)

set_option maxRecDepth 4000 in
/-- Counterexample to C1 as stated: `dC1` passes input validation, yet the
balance sheet generated from it has `TotalAssets = 60`, `TotalLiabilities =
0` and `TotalEquity = -20` in its only year (the 100 of equipment net of one
year's depreciation is not offset by any liability), so
`|TotalAssets - (TotalLiabilities + TotalEquity)| = 80 ≥ 0.01`. -/
theorem balance_invariant_counterexample :
    validateHistoricalData dC1 = true ∧
    ((genBalanceSheet 2025 dC1).line_items.find?
      (fun it => it.label == "TOTAL ASSETS")).map (fun it => it.values) = some [60] ∧
    ((genBalanceSheet 2025 dC1).line_items.find?
      (fun it => it.label == "TOTAL LIABILITIES")).map (fun it => it.values) = some [0] ∧
    ((genBalanceSheet 2025 dC1).line_items.find?
      (fun it => it.label == "TOTAL EQUITY")).map (fun it => it.values) = some [-20] ∧
    ¬ (|(60 : ℚ) - (0 + -20)| < 1 / 100) :=
  ⟨by decide, by decide, by decide, by decide, by decide⟩

/-! ## Breakdown length invariants (claims C5 and C9) -/

/-- Every per-category series in the dict has length `t`. -/
def bdLens (t : ℕ) (m : Breakdown) : Prop := ∀ p ∈ m, p.2.length = t

theorem bdLens_nil (t : ℕ) : bdLens t [] := by intro p hp; cases hp

theorem bdLens_bdSet {t : ℕ} {m : Breakdown} (k : String) (f : List ℚ → List ℚ)
    (hf : ∀ l, l.length = t → (f l).length = t) (h : bdLens t m) :
    bdLens t (bdSet k f m) := by
  intro p hp
  obtain ⟨q, hq, hpq⟩ := List.mem_map.mp hp
  by_cases hk : q.1 == k
  · rw [if_pos hk] at hpq
    subst hpq
    exact hf q.2 (h q hq)
  · rw [if_neg hk] at hpq
    subst hpq
    exact h q hq

theorem bdLens_extend {t : ℕ} {m : Breakdown} (k : String) (h : bdLens t m) :
    bdLens t (m ++ [(k, List.replicate t 0)]) := by
  intro p hp
  rcases List.mem_append.mp hp with hp | hp
  · exact h p hp
  · rcases List.mem_singleton.mp hp with rfl
    exact List.length_replicate t 0

theorem bdLens_revHistYear {t : ℕ} (year_idx : ℕ) (ss : List ServiceRecord)
    {bd : Breakdown} (h : bdLens t bd) :
    bdLens t (revHistYear t year_idx ss bd).2.2 := by
  unfold revHistYear
  refine List.foldlRecOn (motive := fun (st : ℚ × ℚ × Breakdown) => bdLens t st.2.2) ss _ _ h ?_
  intro st hst s _
  dsimp only
  refine bdLens_bdSet _ _ (fun l hl => by simpa using hl) ?_
  split
  · exact hst
  · exact bdLens_extend _ hst

theorem bdLens_revHistPhase (hs : List ServiceYear) (yib t : ℕ) :
    bdLens t (revHistPhase hs yib t).2.2 := by
  unfold revHistPhase
  refine List.foldlRecOn
    (motive := fun (st : List ℚ × List ℚ × Breakdown) => bdLens t st.2.2)
    (List.range yib) _ _ (bdLens_nil t) ?_
  intro st hst year_idx _
  dsimp only
  split
  · exact bdLens_revHistYear year_idx _ hst
  · exact hst

theorem bdForecastM_lens {t : ℕ} {f : String × List ℚ → Except Unit (String × List ℚ)}
    (hf : ∀ p q, p.2.length = t → f p = .ok q → q.2.length = t) :
    ∀ {m m' : Breakdown}, bdForecastM f m = .ok m' → bdLens t m → bdLens t m' := by
  intro m
  induction m with
  | nil =>
    intro m' h _
    cases h
    exact bdLens_nil t
  | cons p rest ih =>
    intro m' h hm
    unfold bdForecastM at h
    obtain ⟨q, hq, h⟩ := exceptBind_ok h
    obtain ⟨rest', hrest, h⟩ := exceptBind_ok h
    cases h
    intro r hr
    rcases List.mem_cons.mp hr with rfl | hr
    · exact hf p r (hm p (List.mem_cons_self p rest)) hq
    · exact ih hrest (fun s hs => hm s (List.mem_cons_of_mem p hs)) r hr

theorem foldlM_except_invariant {α β : Type} {f : β → α → Except Unit β}
    {P : β → Prop} (hf : ∀ b a b', P b → f b a = .ok b' → P b') :
    ∀ (l : List α) {b b' : β}, P b → l.foldlM f b = .ok b' → P b' := by
  intro l
  induction l with
  | nil =>
    intro b b' hb h
    cases h
    exact hb
  | cons a rest ih =>
    intro b b' hb h
    rw [List.foldlM_cons] at h
    obtain ⟨b1, hb1, h⟩ := exceptBind_ok h
    exact ih (hf b a b1 hb hb1) h

theorem revForecastStep_bd_lens {t yib : ℕ}
    (r1 r2 r3 r4 r5 r6 r7 r8 r9 r10 : ℚ) (st st' : RevForecastState) (y : ℕ)
    (h : revForecastStep yib r1 r2 r3 r4 r5 r6 r7 r8 r9 r10 st y = .ok st')
    (hst : bdLens t st.bd) : bdLens t st'.bd := by
  unfold revForecastStep at h
  obtain ⟨pr1, _, h⟩ := exceptBind_ok h
  obtain ⟨bd, hbd, h⟩ := exceptBind_ok h
  cases h
  dsimp only
  repeat' split at hbd
  all_goals
    first
      | (cases hbd; exact hst)
      | (refine bdForecastM_lens ?_ hbd hst
         intro p q hp hq
         split at hq
         · obtain ⟨ratio, _, hq⟩ := exceptBind_ok hq
           cases hq
           simpa using hp
         · cases hq
           exact hp)

/-- A successful revenue breakdown has a `total_years`-length revenue series,
per-service series of the same length, and a `total_years`-length customer
series. -/
theorem calculateRevenueBreakdown_ok_lens {hs : List ServiceYear} {yib fy : ℕ}
    {rgr cgr : ℚ} {sbm : Option ServiceBusinessModelData} {rd : RevenueData}
    (h : calculateRevenueBreakdown hs yib fy rgr cgr sbm = .ok rd) :
    rd.total_revenue.length = yib + fy ∧ bdLens (yib + fy) rd.service_breakdown ∧
      rd.projected_customers.length = yib + fy := by
  unfold calculateRevenueBreakdown at h
  obtain ⟨fin, hfin, h⟩ := exceptBind_ok h
  cases h
  have hbd : bdLens (yib + fy) fin.bd := by
    refine foldlM_except_invariant (P := fun st => bdLens (yib + fy) st.bd)
      ?_ (List.range fy) ?_ hfin
    · intro b a b' hb hstep
      exact revForecastStep_bd_lens _ _ _ _ _ _ _ _ _ _ _ _ _ hstep hb
    · exact bdLens_revHistPhase hs yib (yib + fy)
  refine ⟨length_ensureLen _ _, hbd, ?_⟩
  have hcust : (revHistPhase hs yib (yib + fy)).2.1.length = yib := by
    unfold revHistPhase
    have : ∀ (l : List ℕ) (st : List ℚ × List ℚ × Breakdown),
        (List.foldl (fun st year_idx =>
          match hs[year_idx]? with
          | some yr =>
            let r := revHistYear (yib + fy) year_idx (yr.services.getD []) st.2.2
            (st.1 ++ [r.1], st.2.1 ++ [r.2.1], r.2.2)
          | none => (st.1 ++ [0], st.2.1 ++ [0], st.2.2)) st l).2.1.length
          = st.2.1.length + l.length := by
      intro l
      induction l with
      | nil => intro st; simp
      | cons a rest ih =>
        intro st
        rw [List.foldl_cons]
        split <;> rw [ih] <;> simp <;> omega
    simpa using this (List.range yib) ([], [], [])
  simp [hcust]

theorem bdLens_opexHistYear {t : ℕ} (year_idx : ℕ) (es : List ExpenseRecord)
    {bd : Breakdown} (h : bdLens t bd) :
    bdLens t (opexHistYear t year_idx es bd).2 := by
  unfold opexHistYear
  refine List.foldlRecOn (motive := fun (st : ℚ × Breakdown) => bdLens t st.2)
    es _ _ h ?_
  intro st hst e _
  dsimp only
  refine bdLens_bdSet _ _ (fun l hl => by simpa using hl) ?_
  split
  · exact hst
  · exact bdLens_extend _ hst

theorem bdLens_opexHistPhase (he : List ExpenseYear) (yib t : ℕ) :
    bdLens t (opexHistPhase he yib t).2 := by
  unfold opexHistPhase
  refine List.foldlRecOn (motive := fun (st : List ℚ × Breakdown) => bdLens t st.2)
    (List.range yib) _ _ (bdLens_nil t) ?_
  intro st hst year_idx _
  dsimp only
  split
  · exact bdLens_opexHistYear year_idx _ hst
  · exact hst

/-- A successful operating-expense projection has a `total_years`-length total
series and per-category series of the same length. -/
theorem calculateOperatingExpenses_ok_lens {he : List ExpenseYear} {yib fy : ℕ}
    {egr : ℚ} {oe : OpexData}
    (h : calculateOperatingExpenses he yib fy egr = .ok oe) :
    oe.total_operating_expenses.length = yib + fy ∧
      bdLens (yib + fy) oe.expense_breakdown := by
  unfold calculateOperatingExpenses at h
  obtain ⟨fin, hfin, h⟩ := exceptBind_ok h
  cases h
  refine ⟨length_ensureLen _ _, ?_⟩
  refine foldlM_except_invariant
    (P := fun (st : List ℚ × Breakdown) => bdLens (yib + fy) st.2)
    ?_ (List.range fy) (bdLens_opexHistPhase he yib (yib + fy)) hfin
  intro b a b' hb hstep
  obtain ⟨bd, hbd, hstep⟩ := exceptBind_ok hstep
  cases hstep
  dsimp only
  split at hbd
  · refine bdForecastM_lens ?_ hbd hb
    intro p q hp hq
    split at hq
    · obtain ⟨ratio, _, hq⟩ := exceptBind_ok hq
      cases hq
      simpa using hp
    · cases hq
      exact hp
  · cases hbd
    exact hb

/-! ## Series lengths of the income-statement core -/

theorem lossCarryGo_length (tax_rate : ℚ) :
    ∀ (ebt : List ℚ) (acc : ℚ), (lossCarryGo tax_rate acc ebt).1.length = ebt.length := by
  intro ebt
  induction ebt with
  | nil => intro acc; simp [lossCarryGo]
  | cons e es ih =>
    intro acc
    unfold lossCarryGo
    split
    · simpa using ih _
    · split <;> simpa using ih _

section ISLen

variable (cy : ℤ) (d : InputData) (yib fy : ℕ) (tr : ℚ) (rd : RevenueData)
  (oe : OpexData)

theorem ISC_years_length :
    (incomeArraysCore cy d yib fy tr rd oe).years.length = yib + fy := by
  have h : (incomeArraysCore cy d yib fy tr rd oe).years
      = (List.range (yib + fy)).map
        (fun (i : ℕ) => toString (cy - (yib : ℤ) + 1 + (i : ℤ))) := rfl
  rw [h]
  simp

theorem ISC_cogs_length :
    (incomeArraysCore cy d yib fy tr rd oe).cogs.length = yib + fy :=
  length_ensureLen _ _

theorem ISC_dep_length :
    (incomeArraysCore cy d yib fy tr rd oe).dep.length = yib + fy :=
  length_seqMap _ _

theorem ISC_other_inc_length :
    (incomeArraysCore cy d yib fy tr rd oe).other_inc.length = yib + fy :=
  length_seqMap _ _

theorem ISC_other_exp_length :
    (incomeArraysCore cy d yib fy tr rd oe).other_exp.length = yib + fy :=
  length_seqMap _ _

theorem ISC_inv_inc_length :
    (incomeArraysCore cy d yib fy tr rd oe).inv_inc.length = yib + fy :=
  length_seqMap _ _

theorem ISC_int_exp_length :
    (incomeArraysCore cy d yib fy tr rd oe).int_exp.length = yib + fy :=
  length_seqMap _ _

theorem ISC_owner_comp_length :
    (incomeArraysCore cy d yib fy tr rd oe).owner_comp.length = yib + fy :=
  List.length_replicate _ _

theorem ISC_gross_profit_length :
    (incomeArraysCore cy d yib fy tr rd oe).gross_profit.length = yib + fy :=
  length_seqMap _ _

theorem ISC_ebitda_length :
    (incomeArraysCore cy d yib fy tr rd oe).ebitda.length = yib + fy :=
  length_seqMap _ _

theorem ISC_ebit_length :
    (incomeArraysCore cy d yib fy tr rd oe).ebit.length = yib + fy :=
  length_seqMap _ _

theorem ISC_ebt_length :
    (incomeArraysCore cy d yib fy tr rd oe).ebt.length = yib + fy :=
  length_seqMap _ _

theorem ISC_taxes_length :
    (incomeArraysCore cy d yib fy tr rd oe).taxes.length = yib + fy := by
  show (lossCarryTaxes _ _).length = _
  rw [lossCarryTaxes, lossCarryGo_length]
  exact length_seqMap _ _

theorem ISC_net_income_length :
    (incomeArraysCore cy d yib fy tr rd oe).net_income.length = yib + fy :=
  length_seqMap _ _

theorem ISC_cash_available_length :
    (incomeArraysCore cy d yib fy tr rd oe).cash_available.length = yib + fy :=
  length_seqMap _ _

end ISLen

/-! ## Structural validity (claim C5) -/

/-- Structural validity of a generated statement: it has line items, and
every row carries one value per year label. -/
def wellFormedStatement (s : Statement) : Prop :=
  s.line_items ≠ [] ∧ ∀ it ∈ s.line_items, it.values.length = s.years.length

theorem mkIncomeStatement_wf (cy : ℤ) (d : InputData) (yib fy : ℕ) (tr : ℚ)
    (rd : RevenueData) (oe : OpexData)
    (hrd : rd.total_revenue.length = yib + fy)
    (hbd : bdLens (yib + fy) rd.service_breakdown)
    (hoe : oe.total_operating_expenses.length = yib + fy)
    (hobd : bdLens (yib + fy) oe.expense_breakdown) :
    wellFormedStatement (mkIncomeStatement (incomeArraysCore cy d yib fy tr rd oe)) := by
  constructor
  · simp [mkIncomeStatement]
  · intro it hit
    have hyears : (mkIncomeStatement (incomeArraysCore cy d yib fy tr rd oe)).years.length
        = yib + fy := ISC_years_length cy d yib fy tr rd oe
    rw [hyears]
    dsimp only [mkIncomeStatement, spacerRow] at hit
    rcases List.mem_append.mp hit with hit | h5
    rotate_left
    · obtain ⟨p, hp, rfl⟩ := List.mem_map.mp h5
      exact hobd p (List.mem_filter.mp hp).1
    rcases List.mem_append.mp hit with hit | h4
    rotate_left
    · obtain ⟨p, hp, rfl⟩ := List.mem_map.mp h4
      exact hbd p (List.mem_filter.mp hp).1
    rcases List.mem_append.mp hit with hit | h3
    rotate_left
    · simp only [List.mem_cons, List.not_mem_nil, or_false] at h3
      rcases h3 with rfl | rfl | rfl | rfl | rfl | rfl | rfl | rfl | rfl | rfl | rfl |
        rfl | rfl | rfl | rfl | rfl | rfl | rfl | rfl | rfl | rfl | rfl | rfl <;>
        first
          | exact List.length_replicate _ _
          | exact hoe
          | exact ISC_dep_length cy d yib fy tr rd oe
          | exact ISC_other_inc_length cy d yib fy tr rd oe
          | exact ISC_other_exp_length cy d yib fy tr rd oe
          | exact ISC_ebitda_length cy d yib fy tr rd oe
          | exact ISC_ebit_length cy d yib fy tr rd oe
          | exact ISC_inv_inc_length cy d yib fy tr rd oe
          | exact ISC_int_exp_length cy d yib fy tr rd oe
          | exact ISC_ebt_length cy d yib fy tr rd oe
          | exact ISC_taxes_length cy d yib fy tr rd oe
          | exact ISC_net_income_length cy d yib fy tr rd oe
          | exact ISC_cash_available_length cy d yib fy tr rd oe
          | (show (List.map _ _).length = _
             rw [List.length_map]
             first
               | exact ISC_dep_length cy d yib fy tr rd oe
               | exact ISC_owner_comp_length cy d yib fy tr rd oe)
    rcases List.mem_append.mp hit with h1 | h2
    rotate_left
    · obtain ⟨p, hp, rfl⟩ := List.mem_map.mp h2
      exact hobd p hp
    · simp only [List.mem_cons, List.not_mem_nil, or_false] at h1
      rcases h1 with rfl | rfl | rfl | rfl | rfl | rfl | rfl | rfl | rfl | rfl | rfl <;>
        first
          | exact List.length_replicate _ _
          | exact hrd
          | exact ISC_cogs_length cy d yib fy tr rd oe
          | exact ISC_gross_profit_length cy d yib fy tr rd oe

theorem zipAdd_length {a b : List ℚ} {n : ℕ} (ha : a.length = n)
    (hb : b.length = n) : (zipAdd a b).length = n := by
  rw [zipAdd, List.length_zipWith, ha, hb, min_self]

section BSLen

variable (cy : ℤ) (d : InputData) (yib fy : ℕ) (sf tr : ℚ) (rd : RevenueData)
  (oe : OpexData)

theorem BSC_years_length :
    (bsArraysCore cy d yib fy sf tr rd oe).years.length = yib + fy := by
  have h : (bsArraysCore cy d yib fy sf tr rd oe).years
      = (List.range (yib + fy)).map
        (fun (i : ℕ) => toString (cy - (yib : ℤ) + 1 + (i : ℤ))) := rfl
  rw [h]
  simp

theorem BSC_total_years :
    (bsArraysCore cy d yib fy sf tr rd oe).total_years = yib + fy := rfl

theorem BSC_cash_length :
    (bsArraysCore cy d yib fy sf tr rd oe).cash.length = yib + fy :=
  length_ensureLen _ _

theorem BSC_ar_length :
    (bsArraysCore cy d yib fy sf tr rd oe).accounts_receivable.length = yib + fy :=
  length_ensureLen _ _

theorem BSC_prepaid_length :
    (bsArraysCore cy d yib fy sf tr rd oe).prepaid_expenses.length = yib + fy :=
  length_ensureLen _ _

theorem BSC_equipment_gross_length :
    (bsArraysCore cy d yib fy sf tr rd oe).equipment_gross.length = yib + fy :=
  length_ensureLen _ _

theorem BSC_acc_dep_length :
    (bsArraysCore cy d yib fy sf tr rd oe).accumulated_depreciation.length = yib + fy :=
  length_ensureLen _ _

theorem BSC_net_equipment_length :
    (bsArraysCore cy d yib fy sf tr rd oe).net_equipment.length = yib + fy :=
  length_ensureLen _ _

theorem BSC_investments_length :
    (bsArraysCore cy d yib fy sf tr rd oe).investments.length = yib + fy :=
  length_ensureLen _ _

theorem BSC_ap_length :
    (bsArraysCore cy d yib fy sf tr rd oe).accounts_payable.length = yib + fy :=
  length_ensureLen _ _

theorem BSC_stl_length :
    (bsArraysCore cy d yib fy sf tr rd oe).short_term_loans.length = yib + fy :=
  length_ensureLen _ _

theorem BSC_accrued_length :
    (bsArraysCore cy d yib fy sf tr rd oe).accrued_expenses.length = yib + fy :=
  length_ensureLen _ _

theorem BSC_taxes_payable_length :
    (bsArraysCore cy d yib fy sf tr rd oe).taxes_payable.length = yib + fy :=
  length_ensureLen _ _

theorem BSC_ltl_length :
    (bsArraysCore cy d yib fy sf tr rd oe).long_term_loans.length = yib + fy :=
  length_ensureLen _ _

theorem BSC_retained_length :
    (bsArraysCore cy d yib fy sf tr rd oe).retained_earnings.length = yib + fy :=
  length_ensureLen _ _

theorem BSC_owner_drawings_length :
    (bsArraysCore cy d yib fy sf tr rd oe).owner_drawings.length = yib + fy :=
  length_ensureLen _ _

end BSLen

theorem mkBalanceSheetStatement_wf (cy : ℤ) (d : InputData) (yib fy : ℕ)
    (sf tr : ℚ) (rd : RevenueData) (oe : OpexData) :
    wellFormedStatement
      (mkBalanceSheetStatement (bsArraysCore cy d yib fy sf tr rd oe)) := by
  constructor
  · simp [mkBalanceSheetStatement]
  · intro it hit
    have hyears : (mkBalanceSheetStatement (bsArraysCore cy d yib fy sf tr rd oe)).years.length
        = yib + fy := BSC_years_length cy d yib fy sf tr rd oe
    rw [hyears]
    dsimp only [mkBalanceSheetStatement, spacerRow, BSC_total_years] at hit
    simp only [List.mem_cons, List.not_mem_nil, or_false] at hit
    have hca := BSC_cash_length cy d yib fy sf tr rd oe
    have har := BSC_ar_length cy d yib fy sf tr rd oe
    have hpe := BSC_prepaid_length cy d yib fy sf tr rd oe
    have heg := BSC_equipment_gross_length cy d yib fy sf tr rd oe
    have had := BSC_acc_dep_length cy d yib fy sf tr rd oe
    have hne := BSC_net_equipment_length cy d yib fy sf tr rd oe
    have hin := BSC_investments_length cy d yib fy sf tr rd oe
    have hap := BSC_ap_length cy d yib fy sf tr rd oe
    have hst := BSC_stl_length cy d yib fy sf tr rd oe
    have hae := BSC_accrued_length cy d yib fy sf tr rd oe
    have htp := BSC_taxes_payable_length cy d yib fy sf tr rd oe
    have hlt := BSC_ltl_length cy d yib fy sf tr rd oe
    have hre := BSC_retained_length cy d yib fy sf tr rd oe
    rcases hit with rfl | rfl | rfl | rfl | rfl | rfl | rfl | rfl | rfl | rfl | rfl |
      rfl | rfl | rfl | rfl | rfl | rfl | rfl | rfl | rfl | rfl | rfl | rfl | rfl |
      rfl | rfl | rfl | rfl | rfl | rfl | rfl | rfl | rfl | rfl | rfl | rfl | rfl |
      rfl | rfl | rfl | rfl | rfl <;>
      simp only [List.length_replicate, List.length_map, List.length_zipWith, zipAdd,
        hca, har, hpe, heg, had, hne, hin, hap, hst, hae, htp, hlt, hre, min_self]

section CFLen

variable (cy : ℤ) (d : InputData) (yib fy : ℕ) (tr sf : ℚ) (rd : RevenueData)
  (oe : OpexData)

theorem CFC_years_length :
    (cfArraysCore cy d yib fy tr sf rd oe).years.length = yib + fy := by
  have h : (cfArraysCore cy d yib fy tr sf rd oe).years
      = (List.range (yib + fy)).map
        (fun (i : ℕ) => toString (cy - (yib : ℤ) + 1 + (i : ℤ))) := rfl
  rw [h]
  simp

theorem CFC_net_income_length :
    (cfArraysCore cy d yib fy tr sf rd oe).net_income.length = yib + fy := by
  dsimp only [cfArraysCore]
  split
  · exact length_ensureLen _ _
  · exact length_seqMap _ _

theorem CFC_dep_length :
    (cfArraysCore cy d yib fy tr sf rd oe).depreciation_cf.length = yib + fy :=
  length_sliceFill _ _

theorem CFC_changes_ar_length :
    (cfArraysCore cy d yib fy tr sf rd oe).changes_in_ar.length = yib + fy :=
  length_seqMap _ _

theorem CFC_changes_ap_length :
    (cfArraysCore cy d yib fy tr sf rd oe).changes_in_ap.length = yib + fy :=
  length_seqMap _ _

theorem CFC_changes_prepaid_length :
    (cfArraysCore cy d yib fy tr sf rd oe).changes_in_prepaid.length = yib + fy :=
  length_seqMap _ _

theorem CFC_operations_length :
    (cfArraysCore cy d yib fy tr sf rd oe).net_cash_from_operations.length = yib + fy :=
  length_seqMap _ _

theorem CFC_capex_length :
    (cfArraysCore cy d yib fy tr sf rd oe).capital_expenditures.length = yib + fy := by
  dsimp only [cfArraysCore]
  split <;> exact length_seqMap _ _

theorem CFC_inv_purchases_length :
    (cfArraysCore cy d yib fy tr sf rd oe).investment_purchases.length = yib + fy :=
  length_seqMap _ _

theorem CFC_investing_length :
    (cfArraysCore cy d yib fy tr sf rd oe).net_cash_from_investing.length = yib + fy :=
  length_seqMap _ _

theorem CFC_owner_inv_length :
    (cfArraysCore cy d yib fy tr sf rd oe).owner_investments.length = yib + fy :=
  length_seqMap _ _

theorem CFC_owner_drawings_length :
    (cfArraysCore cy d yib fy tr sf rd oe).owner_drawings.length = yib + fy :=
  length_ensureLen _ _

theorem CFC_loan_proceeds_length :
    (cfArraysCore cy d yib fy tr sf rd oe).loan_proceeds.length = yib + fy := by
  dsimp only [cfArraysCore]
  split <;> exact length_seqMap _ _

theorem CFC_loan_repayments_length :
    (cfArraysCore cy d yib fy tr sf rd oe).loan_repayments.length = yib + fy := by
  dsimp only [cfArraysCore]
  split
  · exact length_seqMap _ _
  · exact List.length_replicate _ _

theorem CFC_financing_length :
    (cfArraysCore cy d yib fy tr sf rd oe).net_cash_from_financing.length = yib + fy :=
  length_seqMap _ _

theorem CFC_ending_cash_length :
    (cfArraysCore cy d yib fy tr sf rd oe).ending_cash.length = yib + fy := by
  dsimp only [cfArraysCore]
  split
  · exact length_ensureLen _ _
  · exact length_seqMap _ _

theorem CFC_beginning_cash_length :
    (cfArraysCore cy d yib fy tr sf rd oe).beginning_cash.length = yib + fy :=
  length_seqMap _ _

theorem CFC_net_change_length :
    (cfArraysCore cy d yib fy tr sf rd oe).net_change_in_cash.length = yib + fy :=
  length_seqMap _ _

end CFLen

theorem mkCashFlowStatement_wf (cy : ℤ) (d : InputData) (yib fy : ℕ)
    (tr sf : ℚ) (rd : RevenueData) (oe : OpexData) :
    wellFormedStatement
      (mkCashFlowStatement (cfArraysCore cy d yib fy tr sf rd oe)) := by
  constructor
  · simp [mkCashFlowStatement]
  · intro it hit
    have hyears : (mkCashFlowStatement (cfArraysCore cy d yib fy tr sf rd oe)).years.length
        = yib + fy := CFC_years_length cy d yib fy tr sf rd oe
    rw [hyears]
    dsimp only [mkCashFlowStatement, spacerRow] at hit
    simp only [List.mem_cons, List.not_mem_nil, or_false] at hit
    have h00 : (cfArraysCore cy d yib fy tr sf rd oe).total_years = yib + fy := rfl
    have h01 := CFC_net_income_length cy d yib fy tr sf rd oe
    have h02 := CFC_dep_length cy d yib fy tr sf rd oe
    have h03 := CFC_changes_ar_length cy d yib fy tr sf rd oe
    have h04 := CFC_changes_ap_length cy d yib fy tr sf rd oe
    have h05 := CFC_changes_prepaid_length cy d yib fy tr sf rd oe
    have h06 := CFC_operations_length cy d yib fy tr sf rd oe
    have h07 := CFC_capex_length cy d yib fy tr sf rd oe
    have h08 := CFC_inv_purchases_length cy d yib fy tr sf rd oe
    have h09 := CFC_investing_length cy d yib fy tr sf rd oe
    have h10 := CFC_owner_inv_length cy d yib fy tr sf rd oe
    have h11 := CFC_owner_drawings_length cy d yib fy tr sf rd oe
    have h12 := CFC_loan_proceeds_length cy d yib fy tr sf rd oe
    have h13 := CFC_loan_repayments_length cy d yib fy tr sf rd oe
    have h14 := CFC_financing_length cy d yib fy tr sf rd oe
    have h15 := CFC_ending_cash_length cy d yib fy tr sf rd oe
    have h16 := CFC_beginning_cash_length cy d yib fy tr sf rd oe
    have h17 := CFC_net_change_length cy d yib fy tr sf rd oe
    rcases hit with rfl | rfl | rfl | rfl | rfl | rfl | rfl | rfl | rfl | rfl | rfl |
      rfl | rfl | rfl | rfl | rfl | rfl | rfl | rfl | rfl | rfl | rfl | rfl | rfl <;>
      simp only [List.length_replicate, List.length_map, h00,
        h01, h02, h03, h04, h05, h06, h07, h08, h09, h10, h11, h12, h13, h14,
        h15, h16, h17]

theorem isFallback_wf (cy : ℤ) : wellFormedStatement (isFallback cy) := by
  constructor
  · simp [isFallback]
  · intro it hit
    simp only [isFallback, List.mem_cons, List.not_mem_nil, or_false] at hit
    rcases hit with rfl | rfl | rfl | rfl | rfl <;> simp [isFallback]

theorem bsFallback_wf (cy : ℤ) : wellFormedStatement (bsFallback cy) := by
  constructor
  · simp [bsFallback]
  · intro it hit
    simp only [bsFallback, List.mem_cons, List.not_mem_nil, or_false] at hit
    rcases hit with rfl | rfl | rfl <;> simp [bsFallback]

theorem cfFallback_wf (cy : ℤ) : wellFormedStatement (cfFallback cy) := by
  constructor
  · simp [cfFallback]
  · intro it hit
    simp only [cfFallback, List.mem_cons, List.not_mem_nil, or_false] at hit
    rcases hit with rfl | rfl | rfl | rfl <;> simp [cfFallback]

/-- C5.  No generator ever propagates a failure: for every input (malformed
or not) each generator returns a structurally valid statement; when the body
raises, the result is exactly the degraded fallback, which for the income
statement has 5 zero-filled placeholder years with line items {Revenue, Cost
of Goods Sold, Gross Profit, Operating Expenses, Net Income} and for the
balance sheet {Assets, Liabilities, Equity}. -/
theorem degraded_path_never_throws :
    (∀ (cy : ℤ) (d : InputData),
      wellFormedStatement (genIncomeStatement cy d) ∧
      wellFormedStatement (genBalanceSheet cy d) ∧
      wellFormedStatement (genCashFlowStatement cy d)) ∧
    (∀ (cy : ℤ) (d : InputData), incomeArrays cy d = .error () →
      genIncomeStatement cy d = isFallback cy) ∧
    (∀ (cy : ℤ) (d : InputData), bsArrays cy d = .error () →
      genBalanceSheet cy d = bsFallback cy) ∧
    (∀ cy : ℤ,
      (isFallback cy).years.length = 5 ∧
      (isFallback cy).line_items.map (fun it => it.label)
        = ["Revenue", "Cost of Goods Sold", "Gross Profit",
            "Operating Expenses", "Net Income"] ∧
      (∀ it ∈ (isFallback cy).line_items, it.values = List.replicate 5 0) ∧
      (bsFallback cy).years.length = 5 ∧
      (bsFallback cy).line_items.map (fun it => it.label)
        = ["Assets", "Liabilities", "Equity"] ∧
      (∀ it ∈ (bsFallback cy).line_items, it.values = List.replicate 5 0)) := by
  refine ⟨?_, ?_, ?_, ?_⟩
  · intro cy d
    refine ⟨?_, ?_, ?_⟩
    · unfold genIncomeStatement
      cases h : incomeArrays cy d with
      | error e => cases e; exact isFallback_wf cy
      | ok a =>
        obtain ⟨yib, fy, tr, rgr, cgr, egr, rd, oe, _, _, _, _, _, h6, _, h8, ha⟩ :=
          incomeArrays_ok_inv h
        subst ha
        obtain ⟨hrd, hbd, _⟩ := calculateRevenueBreakdown_ok_lens h6
        obtain ⟨hoe, hobd⟩ := calculateOperatingExpenses_ok_lens h8
        exact mkIncomeStatement_wf cy d yib fy (tr / 100) rd oe hrd hbd hoe hobd
    · unfold genBalanceSheet
      cases h : bsArrays cy d with
      | error e => cases e; exact bsFallback_wf cy
      | ok a =>
        obtain ⟨yib, fy, sf, tr, rgr, cgr, egr, rd, oe, _, _, _, _, _, _, _, _, _, ha⟩ :=
          bsArrays_ok_inv h
        subst ha
        exact mkBalanceSheetStatement_wf cy d yib fy sf (tr / 100) rd oe
    · unfold genCashFlowStatement
      cases h : cfArrays cy d with
      | error e => cases e; exact cfFallback_wf cy
      | ok a =>
        obtain ⟨yib, fy, tr, rgr, cgr, egr, sf, rd, oe, _, _, _, _, _, _, _, _, _, _, ha⟩ :=
          cfArrays_ok_inv h
        subst ha
        exact mkCashFlowStatement_wf cy d yib fy (tr / 100) sf rd oe
  · intro cy d h
    unfold genIncomeStatement
    rw [h]
  · intro cy d h
    unfold genBalanceSheet
    rw [h]
  · intro cy
    refine ⟨by simp [isFallback], by simp [isFallback], ?_, by simp [bsFallback],
      by simp [bsFallback], ?_⟩
    · intro it hit
      simp only [isFallback, List.mem_cons, List.not_mem_nil, or_false] at hit
      rcases hit with rfl | rfl | rfl | rfl | rfl <;> rfl
    · intro it hit
      simp only [bsFallback, List.mem_cons, List.not_mem_nil, or_false] at hit
      rcases hit with rfl | rfl | rfl <;> rfl

/-- Witness for C5: an unparseable `taxRate` drives the income-statement
generator into its handler, which returns the degraded statement. -/
theorem degraded_path_witness : genIncomeStatement 2025 dBad = isFallback 2025 :=
  degraded_path_never_throws.2.1 2025 dBad (by decide)

/-! ## C9: series lengths and the pad/truncate policy -/

/-- C9.  The normalization policy: `ensure_array_length` always returns
exactly `n` entries, zero-padding a short list on the right and truncating a
long one; and every derived series — revenue, COGS, operating expenses,
depreciation, owner drawings, and every balance-sheet line — has length
exactly `years_in_business + forecast_years`. -/
theorem array_length_normalization :
    (∀ (arr : List ℚ) (n : ℕ),
      (ensureLen arr n).length = n ∧
      (arr.length ≤ n → ensureLen arr n = arr ++ List.replicate (n - arr.length) 0) ∧
      (n ≤ arr.length → ensureLen arr n = arr.take n)) ∧
    (∀ (hs : List ServiceYear) (yib fy : ℕ) (rgr cgr : ℚ)
      (sbm : Option ServiceBusinessModelData) (rd : RevenueData),
      calculateRevenueBreakdown hs yib fy rgr cgr sbm = .ok rd →
        rd.total_revenue.length = yib + fy) ∧
    (∀ (hs : List ServiceYear) (rev : List ℚ) (yib fy : ℕ),
      (calculateCogs hs rev yib fy).length = yib + fy) ∧
    (∀ (he : List ExpenseYear) (yib fy : ℕ) (egr : ℚ) (oe : OpexData),
      calculateOperatingExpenses he yib fy egr = .ok oe →
        oe.total_operating_expenses.length = yib + fy) ∧
    (∀ (heq : List EquipmentYear) (yib fy : ℕ),
      (calculateDepreciation heq yib fy).length = yib + fy) ∧
    (∀ (od : OwnerDrawingsData) (yib fy : ℕ),
      (calculateOwnerCompensation od yib fy).length = yib + fy) ∧
    (∀ (cy : ℤ) (d : InputData) (a : BSArrays), bsArrays cy d = .ok a →
      ∀ it ∈ (mkBalanceSheetStatement a).line_items,
        it.values.length = a.total_years) := by
  refine ⟨?_, ?_, ?_, ?_, ?_, ?_, ?_⟩
  · intro arr n
    refine ⟨length_ensureLen arr n, ?_, ?_⟩
    · intro hle
      unfold ensureLen
      rcases lt_or_eq_of_le hle with h | h
      · rw [if_pos h]
      · rw [if_neg (by omega), if_neg (by omega), h, Nat.sub_self,
          List.replicate_zero, List.append_nil]
    · intro hge
      unfold ensureLen
      rcases lt_or_eq_of_le hge with h | h
      · rw [if_neg (by omega), if_pos (by omega)]
      · rw [if_neg (by omega), if_neg (by omega), h, List.take_length]
  · intro hs yib fy rgr cgr sbm rd h
    exact (calculateRevenueBreakdown_ok_lens h).1
  · intro hs rev yib fy
    exact length_ensureLen _ _
  · intro he yib fy egr oe h
    exact (calculateOperatingExpenses_ok_lens h).1
  · intro heq yib fy
    exact length_seqMap _ _
  · intro od yib fy
    exact List.length_replicate _ _
  · intro cy d a h it hit
    obtain ⟨yib, fy, sf, tr, rgr, cgr, egr, rd, oe, _, _, _, _, _, _, _, _, _, ha⟩ :=
      bsArrays_ok_inv h
    subst ha
    exact ((mkBalanceSheetStatement_wf cy d yib fy sf (tr / 100) rd oe).2 it hit).trans
      (BSC_years_length cy d yib fy sf (tr / 100) rd oe)

/-- Witness for C9: the pad and truncate branches at concrete lists. -/
theorem array_length_normalization_witness :
    ensureLen [1, 2] 4 = [1, 2] ++ List.replicate 2 0 ∧
      ensureLen [1, 2, 3] 2 = [1, 2, 3].take 2 :=
  ⟨by
      have h := (array_length_normalization.1 [1, 2] 4).2.1 (by decide)
      simpa using h,
    by
      have h := (array_length_normalization.1 [1, 2, 3] 2).2.2 (by decide)
      simpa using h⟩

/-! ## C2 and C3: cross-statement consistency -/

/-- The balance sheet's cash row, located exactly as the cash-flow generator
locates it. -/
theorem find_cash_line (a : BSArrays) :
    (mkBalanceSheetStatement a).line_items.find?
      (fun it => strContains it.label "Cash and Cash Equivalents")
      = some { label := "    Cash and Cash Equivalents", values := a.cash,
               is_sub_item := true } := rfl

/-- The cash-flow statement's ending-cash row. -/
theorem find_ending_cash (a : CFArrays) :
    (mkCashFlowStatement a).line_items.find?
      (fun it => strContains it.label "Ending Cash")
      = some { label := "    Ending Cash", values := a.ending_cash,
               is_total := true } := rfl

/-- No dynamically labelled row can shadow the `NET INCOME` total: dynamic
rows ahead of it are indented. -/
theorem space_prefix_ne_NET_INCOME (s : String) : ("    " ++ s) ≠ "NET INCOME" := by
  intro h
  have hd := congrArg String.data h
  rw [String.data_append] at hd
  simp at hd

/-- The income statement's `NET INCOME` row, located exactly as the balance
sheet and cash-flow generators locate it (by exact label match, which no
expense-category row can shadow). -/
theorem find_NET_INCOME (a : ISArrays) :
    (mkIncomeStatement a).line_items.find? (fun it => it.label == "NET INCOME")
      = some { label := "NET INCOME", values := a.net_income, is_total := true } := by
  dsimp only [mkIncomeStatement, spacerRow]
  rw [List.find?_append, List.find?_append, List.find?_append, List.find?_append]
  have hdyn : (a.opex.expense_breakdown.map (fun p =>
      ({ label := "    " ++ pyTitle p.1, values := p.2,
         is_sub_item := true } : LineItem))).find?
      (fun it => it.label == "NET INCOME") = none := by
    rw [List.find?_eq_none]
    intro x hx
    obtain ⟨p, _, rfl⟩ := List.mem_map.mp hx
    simp only [Bool.not_eq_true, beq_eq_false_iff_ne, ne_eq]
    exact space_prefix_ne_NET_INCOME (pyTitle p.1)
  have hL1 : ([
    ({ label := "REVENUE", values := List.replicate a.total_years 0, is_header := true } : LineItem),
    { label := "    Service Revenue", values := a.revenue.total_revenue, is_sub_item := true },
    { label := "TOTAL REVENUE", values := a.revenue.total_revenue, is_total := true },
    { label := "", values := List.replicate a.total_years 0, is_spacer := true },
    { label := "COST OF GOODS SOLD (COGS)", values := List.replicate a.total_years 0, is_header := true },
    { label := "    Direct Costs", values := a.cogs, is_sub_item := true },
    { label := "TOTAL COGS", values := a.cogs, is_total := true },
    { label := "", values := List.replicate a.total_years 0, is_spacer := true },
    { label := "GROSS PROFIT", values := a.gross_profit, is_total := true },
    { label := "", values := List.replicate a.total_years 0, is_spacer := true },
    { label := "OPERATING EXPENSES", values := List.replicate a.total_years 0, is_header := true }
    ]).find? (fun it => it.label == "NET INCOME") = none := rfl
  rw [hL1, hdyn]
  rfl

/-- The beginning-cash rule of the cash-flow core: 0 in year 0, else the
prior year's ending cash. -/
theorem CFC_beginning_spec (cy : ℤ) (d : InputData) (yib fy : ℕ) (tr sf : ℚ)
    (rd : RevenueData) (oe : OpexData) (i : ℕ) (hi : i < yib + fy) :
    get0 (cfArraysCore cy d yib fy tr sf rd oe).beginning_cash i
      = if i = 0 then 0
        else get0 (cfArraysCore cy d yib fy tr sf rd oe).ending_cash (i - 1) := by
  dsimp only [cfArraysCore]
  rw [get0_seqMap _ _ _ hi]

/-- The net-change rule of the cash-flow core: back-computed from the cash
lines. -/
theorem CFC_netchange_spec (cy : ℤ) (d : InputData) (yib fy : ℕ) (tr sf : ℚ)
    (rd : RevenueData) (oe : OpexData) (i : ℕ) (hi : i < yib + fy) :
    get0 (cfArraysCore cy d yib fy tr sf rd oe).net_change_in_cash i
      = get0 (cfArraysCore cy d yib fy tr sf rd oe).ending_cash i
        - get0 (cfArraysCore cy d yib fy tr sf rd oe).beginning_cash i := by
  dsimp only [cfArraysCore]
  rw [get0_seqMap _ _ _ hi]

/-- C2.  On the non-degraded path the cash-flow statement's Ending Cash
series is element-wise identical to the balance sheet's Cash and Cash
Equivalents series; Beginning Cash is 0 in year 0 and the prior Ending Cash
afterwards; and Net Change in Cash is back-computed as Ending minus
Beginning rather than summed from the three activity sections. -/
theorem cash_flow_tie_out :
    ∀ (cy : ℤ) (d : InputData) (ba : BSArrays) (ca : CFArrays),
      bsArrays cy d = .ok ba → cfArrays cy d = .ok ca →
      ca.ending_cash = ba.cash ∧
      ((mkCashFlowStatement ca).line_items.find?
        (fun it => strContains it.label "Ending Cash")).map (fun it => it.values)
        = some ba.cash ∧
      get0 ca.beginning_cash 0 = 0 ∧
      (∀ i, 0 < i → i < ca.total_years →
        get0 ca.beginning_cash i = get0 ca.ending_cash (i - 1)) ∧
      (∀ i < ca.total_years,
        get0 ca.net_change_in_cash i
          = get0 ca.ending_cash i - get0 ca.beginning_cash i) := by
  intro cy d ba ca hBS hCF
  have hgenBS : genBalanceSheet cy d = mkBalanceSheetStatement ba := by
    unfold genBalanceSheet
    rw [hBS]
  obtain ⟨yib, fy, sf, tr, rgr, cgr, egr, rd, oe, hb1, hb2, _, _, _, _, _, _, _, hba⟩ :=
    bsArrays_ok_inv hBS
  obtain ⟨yib2, fy2, tr2, rgr2, cgr2, egr2, sf2, rd2, oe2,
    hc1, hc2, _, _, _, _, _, _, _, hz, hca⟩ := cfArrays_ok_inv hCF
  rw [hb1] at hc1
  rw [hb2] at hc2
  cases hc1
  cases hc2
  have hcashlen : ba.cash.length = yib + fy := by
    rw [hba]
    exact BSC_cash_length cy d yib fy sf (tr / 100) rd oe
  have hend : ca.ending_cash = ba.cash := by
    rw [hca]
    dsimp only [cfArraysCore]
    rw [hgenBS, find_cash_line]
    show ensureLen (ba.cash.take (yib + fy)) (yib + fy) = ba.cash
    rw [← hcashlen, List.take_length]
    exact ensureLen_eq_self _ _ rfl
  refine ⟨hend, ?_, ?_, ?_, ?_⟩
  · rw [find_ending_cash ca]
    show some ca.ending_cash = some ba.cash
    rw [hend]
  · have h0 : (0 : ℕ) < ca.total_years := by
      rw [hca]
      show 0 < yib + fy
      omega
    rw [hca] at h0 ⊢
    rw [CFC_beginning_spec cy d yib fy (tr2 / 100) sf2 rd2 oe2 0 h0]
    simp
  · intro i hipos hi
    rw [hca] at hi ⊢
    rw [CFC_beginning_spec cy d yib fy (tr2 / 100) sf2 rd2 oe2 i hi,
      if_neg (Nat.pos_iff_ne_zero.mp hipos)]
  · intro i hi
    rw [hca] at hi ⊢
    exact CFC_netchange_spec cy d yib fy (tr2 / 100) sf2 rd2 oe2 i hi

/-- The income-statement arrays computed for `dC1`. -/
def iaC1 : ISArrays :=
  incomeArraysCore 2025 dC1 1 0 (25 / 100) ⟨[0], [], [0]⟩ ⟨[0], []⟩

/-- The cash-flow arrays computed for `dC1`. -/
def caC1 : CFArrays :=
  cfArraysCore 2025 dC1 1 0 (25 / 100) 0 ⟨[0], [], [0]⟩ ⟨[0], []⟩

/-- Witness for C2: the tie-out at `dC1`. -/
theorem cash_flow_tie_out_witness : caC1.ending_cash = aC1.cash :=
  (cash_flow_tie_out 2025 dC1 aC1 caC1 (by decide) (by decide)).1

/-- C3.  The NetIncome series the balance sheet stores, the one the cash-flow
statement stores, and the `NET INCOME` line of the directly generated income
statement are all the same series: the internal re-invocations are
deterministic re-evaluations of the same pure function. -/
theorem net_income_consistency :
    ∀ (cy : ℤ) (d : InputData) (ia : ISArrays) (ba : BSArrays) (ca : CFArrays),
      incomeArrays cy d = .ok ia → bsArrays cy d = .ok ba → cfArrays cy d = .ok ca →
      (genIncomeStatement cy d).line_items.find? (fun it => it.label == "NET INCOME")
        = some { label := "NET INCOME", values := ia.net_income, is_total := true } ∧
      ba.net_income_values = ia.net_income ∧
      ca.net_income = ia.net_income := by
  intro cy d ia ba ca hIS hBS hCF
  have hgen : genIncomeStatement cy d = mkIncomeStatement ia := by
    unfold genIncomeStatement
    rw [hIS]
  obtain ⟨yib, fy, tr, rgr, cgr, egr, rd, oe, hi1, hi2, _, _, _, _, _, _, hia⟩ :=
    incomeArrays_ok_inv hIS
  have hnilen : ia.net_income.length = yib + fy := by
    rw [hia]
    exact ISC_net_income_length cy d yib fy (tr / 100) rd oe
  refine ⟨by rw [hgen]; exact find_NET_INCOME ia, ?_, ?_⟩
  · obtain ⟨yib2, fy2, sf2, tr2, rgr2, cgr2, egr2, rd2, oe2,
      hb1, hb2, _, _, _, _, _, _, _, hba⟩ := bsArrays_ok_inv hBS
    rw [hi1] at hb1
    rw [hi2] at hb2
    cases hb1
    cases hb2
    rw [hba]
    dsimp only [bsArraysCore]
    rw [hgen, find_NET_INCOME]
    show ia.net_income.take (yib + fy) = ia.net_income
    rw [← hnilen, List.take_length]
  · obtain ⟨yib3, fy3, tr3, rgr3, cgr3, egr3, sf3, rd3, oe3,
      hc1, hc2, _, _, _, _, _, _, _, _, hca⟩ := cfArrays_ok_inv hCF
    rw [hi1] at hc1
    rw [hi2] at hc2
    cases hc1
    cases hc2
    rw [hca]
    dsimp only [cfArraysCore]
    rw [hgen, find_NET_INCOME]
    show ensureLen (ia.net_income.take (yib + fy)) (yib + fy) = ia.net_income
    rw [← hnilen, List.take_length]
    exact ensureLen_eq_self _ _ rfl

/-- Witness for C3: net-income consistency at `dC1`. -/
theorem net_income_consistency_witness :
    aC1.net_income_values = iaC1.net_income ∧ caC1.net_income = iaC1.net_income :=
  (net_income_consistency 2025 dC1 iaC1 aC1 caC1
    (by decide) (by decide) (by decide)).2
